import Mathlib

/-!
# dpctl: type dispatch of the elementwise functions

Verification development for
`dpctl/tensor/libtensor/source/elementwise_functions.cpp`: the helpers
`_dtype_from_typenum` and `_result_typeid`, the `populate_*` routines that
fill the static dispatch vectors and tables, and the registrations made by
`init_elementwise_functions`; and for the dispatch functions and the device
manager that the sources declare or call but do not define
(`elementwise_functions.hpp`, `dpctl_sycl_device_manager.h`).

C++ `int` values are modelled as `Int` (no arithmetic is performed on them, so
no wrap-around can occur), a thrown exception as `Except.error`, a C array
`T[num_types]` as a function `Fin num_types → T`.
-/

namespace dpctl.tensor.py_internal

/-! ## Exceptions and dtypes -/

deriving instance DecidableEq for Except

/-- Exceptions thrown by the code of this file: `py::value_error` with its message. -/
inductive PyError where
  | value_error (what : String)
  deriving DecidableEq, Repr

/-- A `py::dtype` built from a format string, identified by that string. -/
structure dtype where
  format : String
  deriving DecidableEq, Repr

/-! ## The type enumeration -/

/-- The values of the enumerators of `td_ns::typenum_t` that the switch of
`_dtype_from_typenum` names. The enumeration is declared in
`utils/type_dispatch.hpp` (an `enum class` over `int`), which fixes the values;
they are a parameter here. A `switch` with two equal case labels does not
compile, which is the field `distinct`. -/
structure Enumerators where
  BOOL : Int
  INT8 : Int
  UINT8 : Int
  INT16 : Int
  UINT16 : Int
  INT32 : Int
  UINT32 : Int
  INT64 : Int
  UINT64 : Int
  HALF : Int
  FLOAT : Int
  DOUBLE : Int
  CFLOAT : Int
  CDOUBLE : Int
  distinct : [BOOL, INT8, UINT8, INT16, UINT16, INT32, UINT32, INT64, UINT64,
    HALF, FLOAT, DOUBLE, CFLOAT, CDOUBLE].Nodup

/-- The case labels of the switch of `_dtype_from_typenum`, in source order. -/
def Enumerators.labels (E : Enumerators) : List Int :=
  [E.BOOL, E.INT8, E.UINT8, E.INT16, E.UINT16, E.INT32, E.UINT32, E.INT64,
    E.UINT64, E.HALF, E.FLOAT, E.DOUBLE, E.CFLOAT, E.CDOUBLE]

/-- Modelled from the spec: the enumerator values of `td_ns::typenum_t`
(`utils/type_dispatch.hpp` is not among the sources). Type codes are dense
integers counted from 0; the enumerators are numbered in the order in which
`_dtype_from_typenum` lists them. -/
def td_ns : Enumerators where
  BOOL := 0
  INT8 := 1
  UINT8 := 2
  INT16 := 3
  UINT16 := 4
  INT32 := 5
  UINT32 := 6
  INT64 := 7
  UINT64 := 8
  HALF := 9
  FLOAT := 10
  DOUBLE := 11
  CFLOAT := 12
  CDOUBLE := 13
  distinct := by decide

/-- Function `py::dtype _dtype_from_typenum(td_ns::typenum_t dst_typenum_t)`: the switch
over the enumerators, `default:` throwing `py::value_error`. The argument is a
value of an `enum class` over `int`, that is any `int`. -/
def _dtype_from_typenum (E : Enumerators) (dst_typenum_t : Int) : Except PyError dtype :=
  if dst_typenum_t = E.BOOL then .ok ⟨"?"⟩
  else if dst_typenum_t = E.INT8 then .ok ⟨"i1"⟩
  else if dst_typenum_t = E.UINT8 then .ok ⟨"u1"⟩
  else if dst_typenum_t = E.INT16 then .ok ⟨"i2"⟩
  else if dst_typenum_t = E.UINT16 then .ok ⟨"u2"⟩
  else if dst_typenum_t = E.INT32 then .ok ⟨"i4"⟩
  else if dst_typenum_t = E.UINT32 then .ok ⟨"u4"⟩
  else if dst_typenum_t = E.INT64 then .ok ⟨"i8"⟩
  else if dst_typenum_t = E.UINT64 then .ok ⟨"u8"⟩
  else if dst_typenum_t = E.HALF then .ok ⟨"f2"⟩
  else if dst_typenum_t = E.FLOAT then .ok ⟨"f4"⟩
  else if dst_typenum_t = E.DOUBLE then .ok ⟨"f8"⟩
  else if dst_typenum_t = E.CFLOAT then .ok ⟨"c8"⟩
  else if dst_typenum_t = E.CDOUBLE then .ok ⟨"c16"⟩
  else .error (.value_error "Unrecognized dst_typeid")

/-- Function `int _result_typeid(int arg_typeid, const int *fn_output_id)`: bounds check
against `td_ns::num_types`, then the read `fn_output_id[arg_typeid]`. The
constant `td_ns::num_types` is declared in `utils/type_dispatch.hpp` and is a
parameter; the pointer is the address of an `int[td_ns::num_types]`. -/
def _result_typeid (num_types : Nat) (arg_typeid : Int) (fn_output_id : Fin num_types → Int) :
    Except PyError Int :=
  if h : arg_typeid < 0 ∨ arg_typeid ≥ (num_types : Int) then
    .error (.value_error
      ("Input typeid " ++ toString arg_typeid ++ " is outside of expected bounds."))
  else
    .ok (fn_output_id ⟨arg_typeid.toNat, by omega⟩)

/-! ## The static dispatch vectors and tables -/

/-- The unary operations that have code in the file (the `U..` sections that are
not `FIXME` placeholders), named as the prefix of their static arrays. -/
inductive UnaryOp where
  | abs
  | conj
  | cos
  | exp
  | expm1
  | imag
  | isfinite
  | isinf
  | isnan
  | log
  | log1p
  | log2
  | log10
  | logical_not
  | negative
  | positive
  | proj
  | real
  | sin
  | square
  | sqrt
  deriving DecidableEq, Repr, Fintype

/-- The binary operations that have code in the file (the `B..` sections that
are not `FIXME` placeholders), named as the prefix of their static arrays. -/
inductive BinaryOp where
  | add
  | true_divide
  | equal
  | floor_divide
  | greater
  | greater_equal
  | less
  | less_equal
  | logical_and
  | logical_or
  | logical_xor
  | multiply
  | not_equal
  | pow
  | subtract
  deriving DecidableEq, Repr, Fintype

/-- An operation with a `populate_*` routine: `populate_X_dispatch_vectors` for
a unary one, `populate_X_dispatch_tables` for a binary one. -/
inductive Op where
  | unary (op : UnaryOp)
  | binary (op : BinaryOp)
  deriving DecidableEq, Repr, Fintype

/-- The kernel variants of a unary operation: `X_contig_dispatch_vector` and
`X_strided_dispatch_vector`, filled from `XContigFactory`, `XStridedFactory`. -/
inductive UnaryVariant where
  | contig
  | strided
  deriving DecidableEq, Repr, Fintype

/-- The kernel variants of a binary operation, named as in
`X_<variant>_dispatch_table`; the factories are `XContigFactory`,
`XStridedFactory`, `XContigMatrixContigRowBroadcastFactory`,
`XContigRowContigMatrixBroadcastFactory`, `XInplaceContigFactory`,
`XInplaceStridedFactory` and `XInplaceRowMatrixBroadcastFactory`. -/
inductive BinaryVariant where
  | contig
  | strided
  | contig_matrix_contig_row_broadcast
  | contig_row_contig_matrix_broadcast
  | inplace_contig
  | inplace_strided
  | inplace_row_matrix
  deriving DecidableEq, Repr, Fintype

/-- The name of a static array of namespace `impl`:
`X_output_typeid_vector`, `X_<variant>_dispatch_vector`, `X_output_id_table`,
`X_<variant>_dispatch_table`. -/
inductive TableId where
  | output_typeid_vector (op : UnaryOp)
  | dispatch_vector (op : UnaryOp) (variant : UnaryVariant)
  | output_id_table (op : BinaryOp)
  | dispatch_table (op : BinaryOp) (variant : BinaryVariant)
  deriving DecidableEq, Repr, Fintype

/-- The operation a static array belongs to (the prefix of its name). -/
def TableId.op : TableId → Op
  | .output_typeid_vector op => .unary op
  | .dispatch_vector op _ => .unary op
  | .output_id_table op => .binary op
  | .dispatch_table op _ => .binary op

/-- The static arrays that the file declares for each operation, in source
order. -/
def declared_tables : Op → List TableId
  | .unary .abs =>
    [.dispatch_vector .abs .contig,
     .output_typeid_vector .abs,
     .dispatch_vector .abs .strided]
  | .binary .add =>
    [.dispatch_table .add .contig,
     .output_id_table .add,
     .dispatch_table .add .strided,
     .dispatch_table .add .contig_matrix_contig_row_broadcast,
     .dispatch_table .add .contig_row_contig_matrix_broadcast,
     .dispatch_table .add .inplace_contig,
     .dispatch_table .add .inplace_strided,
     .dispatch_table .add .inplace_row_matrix]
  | .unary .conj =>
    [.dispatch_vector .conj .contig,
     .output_typeid_vector .conj,
     .dispatch_vector .conj .strided]
  | .unary .cos =>
    [.dispatch_vector .cos .contig,
     .output_typeid_vector .cos,
     .dispatch_vector .cos .strided]
  | .binary .true_divide =>
    [.dispatch_table .true_divide .contig,
     .output_id_table .true_divide,
     .dispatch_table .true_divide .strided,
     .dispatch_table .true_divide .contig_matrix_contig_row_broadcast,
     .dispatch_table .true_divide .contig_row_contig_matrix_broadcast]
  | .binary .equal =>
    [.dispatch_table .equal .contig,
     .output_id_table .equal,
     .dispatch_table .equal .strided]
  | .unary .exp =>
    [.dispatch_vector .exp .contig,
     .output_typeid_vector .exp,
     .dispatch_vector .exp .strided]
  | .unary .expm1 =>
    [.dispatch_vector .expm1 .contig,
     .output_typeid_vector .expm1,
     .dispatch_vector .expm1 .strided]
  | .binary .floor_divide =>
    [.dispatch_table .floor_divide .contig,
     .output_id_table .floor_divide,
     .dispatch_table .floor_divide .strided]
  | .binary .greater =>
    [.dispatch_table .greater .contig,
     .output_id_table .greater,
     .dispatch_table .greater .strided]
  | .binary .greater_equal =>
    [.dispatch_table .greater_equal .contig,
     .output_id_table .greater_equal,
     .dispatch_table .greater_equal .strided]
  | .unary .imag =>
    [.dispatch_vector .imag .contig,
     .output_typeid_vector .imag,
     .dispatch_vector .imag .strided]
  | .unary .isfinite =>
    [.dispatch_vector .isfinite .contig,
     .output_typeid_vector .isfinite,
     .dispatch_vector .isfinite .strided]
  | .unary .isinf =>
    [.dispatch_vector .isinf .contig,
     .output_typeid_vector .isinf,
     .dispatch_vector .isinf .strided]
  | .unary .isnan =>
    [.dispatch_vector .isnan .contig,
     .output_typeid_vector .isnan,
     .dispatch_vector .isnan .strided]
  | .binary .less =>
    [.dispatch_table .less .contig,
     .output_id_table .less,
     .dispatch_table .less .strided]
  | .binary .less_equal =>
    [.dispatch_table .less_equal .contig,
     .output_id_table .less_equal,
     .dispatch_table .less_equal .strided]
  | .unary .log =>
    [.dispatch_vector .log .contig,
     .output_typeid_vector .log,
     .dispatch_vector .log .strided]
  | .unary .log1p =>
    [.dispatch_vector .log1p .contig,
     .output_typeid_vector .log1p,
     .dispatch_vector .log1p .strided]
  | .unary .log2 =>
    [.dispatch_vector .log2 .contig,
     .output_typeid_vector .log2,
     .dispatch_vector .log2 .strided]
  | .unary .log10 =>
    [.dispatch_vector .log10 .contig,
     .output_typeid_vector .log10,
     .dispatch_vector .log10 .strided]
  | .binary .logical_and =>
    [.dispatch_table .logical_and .contig,
     .output_id_table .logical_and,
     .dispatch_table .logical_and .strided]
  | .unary .logical_not =>
    [.dispatch_vector .logical_not .contig,
     .output_typeid_vector .logical_not,
     .dispatch_vector .logical_not .strided]
  | .binary .logical_or =>
    [.dispatch_table .logical_or .contig,
     .output_id_table .logical_or,
     .dispatch_table .logical_or .strided]
  | .binary .logical_xor =>
    [.dispatch_table .logical_xor .contig,
     .output_id_table .logical_xor,
     .dispatch_table .logical_xor .strided]
  | .binary .multiply =>
    [.dispatch_table .multiply .contig,
     .output_id_table .multiply,
     .dispatch_table .multiply .strided,
     .dispatch_table .multiply .contig_matrix_contig_row_broadcast,
     .dispatch_table .multiply .contig_row_contig_matrix_broadcast,
     .dispatch_table .multiply .inplace_contig,
     .dispatch_table .multiply .inplace_strided,
     .dispatch_table .multiply .inplace_row_matrix]
  | .unary .negative =>
    [.dispatch_vector .negative .contig,
     .output_typeid_vector .negative,
     .dispatch_vector .negative .strided]
  | .binary .not_equal =>
    [.dispatch_table .not_equal .contig,
     .output_id_table .not_equal,
     .dispatch_table .not_equal .strided]
  | .unary .positive =>
    [.dispatch_vector .positive .contig,
     .output_typeid_vector .positive,
     .dispatch_vector .positive .strided]
  | .binary .pow =>
    [.dispatch_table .pow .contig,
     .output_id_table .pow,
     .dispatch_table .pow .strided]
  | .unary .proj =>
    [.dispatch_vector .proj .contig,
     .output_typeid_vector .proj,
     .dispatch_vector .proj .strided]
  | .unary .real =>
    [.dispatch_vector .real .contig,
     .output_typeid_vector .real,
     .dispatch_vector .real .strided]
  | .unary .sin =>
    [.dispatch_vector .sin .contig,
     .output_typeid_vector .sin,
     .dispatch_vector .sin .strided]
  | .unary .square =>
    [.dispatch_vector .square .contig,
     .output_typeid_vector .square,
     .dispatch_vector .square .strided]
  | .unary .sqrt =>
    [.dispatch_vector .sqrt .contig,
     .output_typeid_vector .sqrt,
     .dispatch_vector .sqrt .strided]
  | .binary .subtract =>
    [.dispatch_table .subtract .contig,
     .output_id_table .subtract,
     .dispatch_table .subtract .strided,
     .dispatch_table .subtract .contig_matrix_contig_row_broadcast,
     .dispatch_table .subtract .contig_row_contig_matrix_broadcast,
     .dispatch_table .subtract .inplace_contig,
     .dispatch_table .subtract .inplace_strided,
     .dispatch_table .subtract .inplace_row_matrix]

/-- A kernel function pointer: `nullptr` or the address of a kernel. -/
abbrev fn_ptr_t := Option Nat

/-- The contents of a static array: `int[num_types]`, `fn_ptr_t[num_types]`,
`int[num_types][num_types]` or `fn_ptr_t[num_types][num_types]`. -/
def Contents (num_types : Nat) : TableId → Type
  | .output_typeid_vector _ => Fin num_types → Int
  | .dispatch_vector _ _ => Fin num_types → fn_ptr_t
  | .output_id_table _ => Fin num_types → Fin num_types → Int
  | .dispatch_table _ _ => Fin num_types → Fin num_types → fn_ptr_t

/-- The static storage of namespace `impl`: the contents of every array. An
array name that the file does not declare (see `declared_tables`) is carried
along; no routine reads or writes it. -/
abbrev Tables (num_types : Nat) := (t : TableId) → Contents num_types t

/-- The factories of `kernels/elementwise_functions/*.hpp`, which are not among
the sources and are a parameter: what `factory<fnT, T>{}.get()` (unary) or
`factory<fnT, T1, T2>{}.get()` (binary) gives for each type code. `TypeMap` is
`XTypeMapFactory`; `Kernel` at a variant is `XContigFactory` and so on. -/
structure Factories (num_types : Nat) where
  UnaryTypeMap : UnaryOp → Fin num_types → Int
  UnaryKernel : UnaryOp → UnaryVariant → Fin num_types → fn_ptr_t
  BinaryTypeMap : BinaryOp → Fin num_types → Fin num_types → Int
  BinaryKernel : BinaryOp → BinaryVariant → Fin num_types → Fin num_types → fn_ptr_t

/-- Modelled from the spec: `DispatchVectorBuilder<T, factory,
num_types>::populate_dispatch_vector` of `utils/type_dispatch.hpp`, which is
not among the sources. It iterates the range of type codes and stores the
factory's value for the code in the cell of the code. -/
def populate_dispatch_vector {α : Type} (num_types : Nat) (factory : Fin num_types → α)
    (vector : Fin num_types → α) : Fin num_types → α :=
  (List.finRange num_types).foldl (fun v i => Function.update v i (factory i)) vector

/-- Modelled from the spec: `DispatchTableBuilder<T, factory,
num_types>::populate_dispatch_table` of `utils/type_dispatch.hpp`, which is not
among the sources. It iterates the cross product of the type codes and stores
the factory's value for the pair in the cell of the pair. -/
def populate_dispatch_table {α : Type} (num_types : Nat)
    (factory : Fin num_types → Fin num_types → α)
    (table : Fin num_types → Fin num_types → α) : Fin num_types → Fin num_types → α :=
  (List.finRange num_types).foldl
    (fun t i => (List.finRange num_types).foldl
      (fun t j => Function.update t i (Function.update (t i) j (factory i j))) t)
    table

/-- One statement pair of a populate routine: a builder instantiated with a
factory, and its `populate_dispatch_vector(array)` or
`populate_dispatch_table(array)` call. `vector_int f t` is
`DispatchVectorBuilder<int, fTypeMapFactory, num_types>` applied to
`t_output_typeid_vector`; `vector_fn f v t w` is the builder of the factory of
`f` for variant `v` applied to `t_w_dispatch_vector`; likewise for tables. -/
inductive BuilderCall where
  | vector_int (factory : UnaryOp) (target : UnaryOp)
  | vector_fn (factory : UnaryOp) (fvariant : UnaryVariant)
      (target : UnaryOp) (tvariant : UnaryVariant)
  | table_int (factory : BinaryOp) (target : BinaryOp)
  | table_fn (factory : BinaryOp) (fvariant : BinaryVariant)
      (target : BinaryOp) (tvariant : BinaryVariant)
  deriving DecidableEq, Repr

/-- The array a builder call writes. -/
def BuilderCall.target : BuilderCall → TableId
  | .vector_int _ t => .output_typeid_vector t
  | .vector_fn _ _ t w => .dispatch_vector t w
  | .table_int _ t => .output_id_table t
  | .table_fn _ _ t w => .dispatch_table t w

/-- The factory of a builder call, named by the array of the same operation and
variant (`AbsContigFactory` by `abs_contig_dispatch_vector`). -/
def BuilderCall.factory : BuilderCall → TableId
  | .vector_int f _ => .output_typeid_vector f
  | .vector_fn f v _ _ => .dispatch_vector f v
  | .table_int f _ => .output_id_table f
  | .table_fn f v _ _ => .dispatch_table f v

/-- The effect of one builder call on the static storage. -/
def BuilderCall.exec {num_types : Nat} (F : Factories num_types) :
    BuilderCall → Tables num_types → Tables num_types
  | .vector_int f t, s =>
    Function.update s (.output_typeid_vector t)
      (populate_dispatch_vector num_types (F.UnaryTypeMap f) (s (.output_typeid_vector t)))
  | .vector_fn f v t w, s =>
    Function.update s (.dispatch_vector t w)
      (populate_dispatch_vector num_types (F.UnaryKernel f v) (s (.dispatch_vector t w)))
  | .table_int f t, s =>
    Function.update s (.output_id_table t)
      (populate_dispatch_table num_types (F.BinaryTypeMap f) (s (.output_id_table t)))
  | .table_fn f v t w, s =>
    Function.update s (.dispatch_table t w)
      (populate_dispatch_table num_types (F.BinaryKernel f v) (s (.dispatch_table t w)))

/-- Running the body of a populate routine: its builder calls in order. -/
def run_populate {num_types : Nat} (F : Factories num_types) (body : List BuilderCall)
    (s : Tables num_types) : Tables num_types :=
  body.foldl (fun s c => c.exec F s) s

/-! ## The populate routines -/

/-- Routine `void populate_abs_dispatch_vectors(void)`: its builder calls, in source order. -/
def populate_abs_dispatch_vectors : List BuilderCall :=
  [.vector_fn .abs .contig .abs .contig,
   .vector_fn .abs .strided .abs .strided,
   .vector_int .abs .abs]

/-- Routine `void populate_add_dispatch_tables(void)`: its builder calls, in source order. -/
def populate_add_dispatch_tables : List BuilderCall :=
  [.table_int .add .add,
   .table_fn .add .strided .add .strided,
   .table_fn .add .contig .add .contig,
   .table_fn .add .contig_matrix_contig_row_broadcast .add .contig_matrix_contig_row_broadcast,
   .table_fn .add .contig_row_contig_matrix_broadcast .add .contig_row_contig_matrix_broadcast,
   .table_fn .add .inplace_strided .add .inplace_strided,
   .table_fn .add .inplace_contig .add .inplace_contig,
   .table_fn .add .inplace_row_matrix .add .inplace_row_matrix]

/-- Routine `void populate_conj_dispatch_vectors(void)`: its builder calls, in source order. -/
def populate_conj_dispatch_vectors : List BuilderCall :=
  [.vector_fn .conj .contig .conj .contig,
   .vector_fn .conj .strided .conj .strided,
   .vector_int .conj .conj]

/-- Routine `void populate_cos_dispatch_vectors(void)`: its builder calls, in source order. -/
def populate_cos_dispatch_vectors : List BuilderCall :=
  [.vector_fn .cos .contig .cos .contig,
   .vector_fn .cos .strided .cos .strided,
   .vector_int .cos .cos]

/-- Routine `void populate_true_divide_dispatch_tables(void)`: its builder calls, in source order. -/
def populate_true_divide_dispatch_tables : List BuilderCall :=
  [.table_int .true_divide .true_divide,
   .table_fn .true_divide .strided .true_divide .strided,
   .table_fn .true_divide .contig .true_divide .contig,
   .table_fn .true_divide .contig_matrix_contig_row_broadcast .true_divide .contig_matrix_contig_row_broadcast,
   .table_fn .true_divide .contig_row_contig_matrix_broadcast .true_divide .contig_row_contig_matrix_broadcast]

/-- Routine `void populate_equal_dispatch_tables(void)`: its builder calls, in source order. -/
def populate_equal_dispatch_tables : List BuilderCall :=
  [.table_int .equal .equal,
   .table_fn .equal .strided .equal .strided,
   .table_fn .equal .contig .equal .contig]

/-- Routine `void populate_exp_dispatch_vectors(void)`: its builder calls, in source order. -/
def populate_exp_dispatch_vectors : List BuilderCall :=
  [.vector_fn .exp .contig .exp .contig,
   .vector_fn .exp .strided .exp .strided,
   .vector_int .exp .exp]

/-- Routine `void populate_expm1_dispatch_vectors(void)`: its builder calls, in source order. -/
def populate_expm1_dispatch_vectors : List BuilderCall :=
  [.vector_fn .expm1 .contig .expm1 .contig,
   .vector_fn .expm1 .strided .expm1 .strided,
   .vector_int .expm1 .expm1]

/-- Routine `void populate_floor_divide_dispatch_tables(void)`: its builder calls, in source order. -/
def populate_floor_divide_dispatch_tables : List BuilderCall :=
  [.table_int .floor_divide .floor_divide,
   .table_fn .floor_divide .strided .floor_divide .strided,
   .table_fn .floor_divide .contig .floor_divide .contig]

/-- Routine `void populate_greater_dispatch_tables(void)`: its builder calls, in source order. -/
def populate_greater_dispatch_tables : List BuilderCall :=
  [.table_int .greater .greater,
   .table_fn .greater .strided .greater .strided,
   .table_fn .greater .contig .greater .contig]

/-- Routine `void populate_greater_equal_dispatch_tables(void)`: its builder calls, in source order. -/
def populate_greater_equal_dispatch_tables : List BuilderCall :=
  [.table_int .greater_equal .greater_equal,
   .table_fn .greater_equal .strided .greater_equal .strided,
   .table_fn .greater_equal .contig .greater_equal .contig]

/-- Routine `void populate_imag_dispatch_vectors(void)`: its builder calls, in source order. -/
def populate_imag_dispatch_vectors : List BuilderCall :=
  [.vector_fn .imag .contig .imag .contig,
   .vector_fn .imag .strided .imag .strided,
   .vector_int .imag .imag]

/-- Routine `void populate_isfinite_dispatch_vectors(void)`: its builder calls, in source order. -/
def populate_isfinite_dispatch_vectors : List BuilderCall :=
  [.vector_fn .isfinite .contig .isfinite .contig,
   .vector_fn .isfinite .strided .isfinite .strided,
   .vector_int .isfinite .isfinite]

/-- Routine `void populate_isinf_dispatch_vectors(void)`: its builder calls, in source order. -/
def populate_isinf_dispatch_vectors : List BuilderCall :=
  [.vector_fn .isinf .contig .isinf .contig,
   .vector_fn .isinf .strided .isinf .strided,
   .vector_int .isinf .isinf]

/-- Routine `void populate_isnan_dispatch_vectors(void)`: its builder calls, in source order. -/
def populate_isnan_dispatch_vectors : List BuilderCall :=
  [.vector_fn .isnan .contig .isnan .contig,
   .vector_fn .isnan .strided .isnan .strided,
   .vector_int .isnan .isnan]

/-- Routine `void populate_less_dispatch_tables(void)`: its builder calls, in source order. -/
def populate_less_dispatch_tables : List BuilderCall :=
  [.table_int .less .less,
   .table_fn .less .strided .less .strided,
   .table_fn .less .contig .less .contig]

/-- Routine `void populate_less_equal_dispatch_tables(void)`: its builder calls, in source order. -/
def populate_less_equal_dispatch_tables : List BuilderCall :=
  [.table_int .less_equal .less_equal,
   .table_fn .less_equal .strided .less_equal .strided,
   .table_fn .less_equal .contig .less_equal .contig]

/-- Routine `void populate_log_dispatch_vectors(void)`: its builder calls, in source order. -/
def populate_log_dispatch_vectors : List BuilderCall :=
  [.vector_fn .log .contig .log .contig,
   .vector_fn .log .strided .log .strided,
   .vector_int .log .log]

/-- Routine `void populate_log1p_dispatch_vectors(void)`: its builder calls, in source order. -/
def populate_log1p_dispatch_vectors : List BuilderCall :=
  [.vector_fn .log1p .contig .log1p .contig,
   .vector_fn .log1p .strided .log1p .strided,
   .vector_int .log1p .log1p]

/-- Routine `void populate_log2_dispatch_vectors(void)`: its builder calls, in source order. -/
def populate_log2_dispatch_vectors : List BuilderCall :=
  [.vector_fn .log2 .contig .log2 .contig,
   .vector_fn .log2 .strided .log2 .strided,
   .vector_int .log2 .log2]

/-- Routine `void populate_log10_dispatch_vectors(void)`: its builder calls, in source order. -/
def populate_log10_dispatch_vectors : List BuilderCall :=
  [.vector_fn .log10 .contig .log10 .contig,
   .vector_fn .log10 .strided .log10 .strided,
   .vector_int .log10 .log10]

/-- Routine `void populate_logical_and_dispatch_tables(void)`: its builder calls, in source order. -/
def populate_logical_and_dispatch_tables : List BuilderCall :=
  [.table_int .logical_and .logical_and,
   .table_fn .logical_and .strided .logical_and .strided,
   .table_fn .logical_and .contig .logical_and .contig]

/-- Routine `void populate_logical_not_dispatch_vectors(void)`: its builder calls, in source order. -/
def populate_logical_not_dispatch_vectors : List BuilderCall :=
  [.vector_fn .logical_not .contig .logical_not .contig,
   .vector_fn .logical_not .strided .logical_not .strided,
   .vector_int .logical_not .logical_not]

/-- Routine `void populate_logical_or_dispatch_tables(void)`: its builder calls, in source order. -/
def populate_logical_or_dispatch_tables : List BuilderCall :=
  [.table_int .logical_or .logical_or,
   .table_fn .logical_or .strided .logical_or .strided,
   .table_fn .logical_or .contig .logical_or .contig]

/-- Routine `void populate_logical_xor_dispatch_tables(void)`: its builder calls, in source order. -/
def populate_logical_xor_dispatch_tables : List BuilderCall :=
  [.table_int .logical_xor .logical_xor,
   .table_fn .logical_xor .strided .logical_xor .strided,
   .table_fn .logical_xor .contig .logical_xor .contig]

/-- Routine `void populate_multiply_dispatch_tables(void)`: its builder calls, in source order. -/
def populate_multiply_dispatch_tables : List BuilderCall :=
  [.table_int .multiply .multiply,
   .table_fn .multiply .strided .multiply .strided,
   .table_fn .multiply .contig .multiply .contig,
   .table_fn .multiply .contig_matrix_contig_row_broadcast .multiply .contig_matrix_contig_row_broadcast,
   .table_fn .multiply .contig_row_contig_matrix_broadcast .multiply .contig_row_contig_matrix_broadcast,
   .table_fn .multiply .inplace_strided .multiply .inplace_strided,
   .table_fn .multiply .inplace_contig .multiply .inplace_contig,
   .table_fn .multiply .inplace_row_matrix .multiply .inplace_row_matrix]

/-- Routine `void populate_negative_dispatch_vectors(void)`: its builder calls, in source order. -/
def populate_negative_dispatch_vectors : List BuilderCall :=
  [.vector_fn .negative .contig .negative .contig,
   .vector_fn .negative .strided .negative .strided,
   .vector_int .negative .negative]

/-- Routine `void populate_not_equal_dispatch_tables(void)`: its builder calls, in source order. -/
def populate_not_equal_dispatch_tables : List BuilderCall :=
  [.table_int .not_equal .not_equal,
   .table_fn .not_equal .strided .not_equal .strided,
   .table_fn .not_equal .contig .not_equal .contig]

/-- Routine `void populate_positive_dispatch_vectors(void)`: its builder calls, in source order. -/
def populate_positive_dispatch_vectors : List BuilderCall :=
  [.vector_fn .positive .contig .positive .contig,
   .vector_fn .positive .strided .positive .strided,
   .vector_int .positive .positive]

/-- Routine `void populate_pow_dispatch_tables(void)`: its builder calls, in source order. -/
def populate_pow_dispatch_tables : List BuilderCall :=
  [.table_int .pow .pow,
   .table_fn .pow .strided .pow .strided,
   .table_fn .pow .contig .pow .contig]

/-- Routine `void populate_proj_dispatch_vectors(void)`: its builder calls, in source order. -/
def populate_proj_dispatch_vectors : List BuilderCall :=
  [.vector_fn .proj .contig .proj .contig,
   .vector_fn .proj .strided .proj .strided,
   .vector_int .proj .proj]

/-- Routine `void populate_real_dispatch_vectors(void)`: its builder calls, in source order. -/
def populate_real_dispatch_vectors : List BuilderCall :=
  [.vector_fn .real .contig .real .contig,
   .vector_fn .real .strided .real .strided,
   .vector_int .real .real]

/-- Routine `void populate_sin_dispatch_vectors(void)`: its builder calls, in source order. -/
def populate_sin_dispatch_vectors : List BuilderCall :=
  [.vector_fn .sin .contig .sin .contig,
   .vector_fn .sin .strided .sin .strided,
   .vector_int .sin .sin]

/-- Routine `void populate_square_dispatch_vectors(void)`: its builder calls, in source order. -/
def populate_square_dispatch_vectors : List BuilderCall :=
  [.vector_fn .square .contig .square .contig,
   .vector_fn .square .strided .square .strided,
   .vector_int .square .square]

/-- Routine `void populate_sqrt_dispatch_vectors(void)`: its builder calls, in source order. -/
def populate_sqrt_dispatch_vectors : List BuilderCall :=
  [.vector_fn .sqrt .contig .sqrt .contig,
   .vector_fn .sqrt .strided .sqrt .strided,
   .vector_int .sqrt .sqrt]

/-- Routine `void populate_subtract_dispatch_tables(void)`: its builder calls, in source order. -/
def populate_subtract_dispatch_tables : List BuilderCall :=
  [.table_int .subtract .subtract,
   .table_fn .subtract .strided .subtract .strided,
   .table_fn .subtract .contig .subtract .contig,
   .table_fn .subtract .contig_matrix_contig_row_broadcast .subtract .contig_matrix_contig_row_broadcast,
   .table_fn .subtract .contig_row_contig_matrix_broadcast .subtract .contig_row_contig_matrix_broadcast,
   .table_fn .subtract .inplace_strided .subtract .inplace_strided,
   .table_fn .subtract .inplace_contig .subtract .inplace_contig,
   .table_fn .subtract .inplace_row_matrix .subtract .inplace_row_matrix]

/-- The populate routine of an operation. -/
def populate_routine : Op → List BuilderCall
  | .unary .abs => populate_abs_dispatch_vectors
  | .binary .add => populate_add_dispatch_tables
  | .unary .conj => populate_conj_dispatch_vectors
  | .unary .cos => populate_cos_dispatch_vectors
  | .binary .true_divide => populate_true_divide_dispatch_tables
  | .binary .equal => populate_equal_dispatch_tables
  | .unary .exp => populate_exp_dispatch_vectors
  | .unary .expm1 => populate_expm1_dispatch_vectors
  | .binary .floor_divide => populate_floor_divide_dispatch_tables
  | .binary .greater => populate_greater_dispatch_tables
  | .binary .greater_equal => populate_greater_equal_dispatch_tables
  | .unary .imag => populate_imag_dispatch_vectors
  | .unary .isfinite => populate_isfinite_dispatch_vectors
  | .unary .isinf => populate_isinf_dispatch_vectors
  | .unary .isnan => populate_isnan_dispatch_vectors
  | .binary .less => populate_less_dispatch_tables
  | .binary .less_equal => populate_less_equal_dispatch_tables
  | .unary .log => populate_log_dispatch_vectors
  | .unary .log1p => populate_log1p_dispatch_vectors
  | .unary .log2 => populate_log2_dispatch_vectors
  | .unary .log10 => populate_log10_dispatch_vectors
  | .binary .logical_and => populate_logical_and_dispatch_tables
  | .unary .logical_not => populate_logical_not_dispatch_vectors
  | .binary .logical_or => populate_logical_or_dispatch_tables
  | .binary .logical_xor => populate_logical_xor_dispatch_tables
  | .binary .multiply => populate_multiply_dispatch_tables
  | .unary .negative => populate_negative_dispatch_vectors
  | .binary .not_equal => populate_not_equal_dispatch_tables
  | .unary .positive => populate_positive_dispatch_vectors
  | .binary .pow => populate_pow_dispatch_tables
  | .unary .proj => populate_proj_dispatch_vectors
  | .unary .real => populate_real_dispatch_vectors
  | .unary .sin => populate_sin_dispatch_vectors
  | .unary .square => populate_square_dispatch_vectors
  | .unary .sqrt => populate_sqrt_dispatch_vectors
  | .binary .subtract => populate_subtract_dispatch_tables

/-! ## `init_elementwise_functions` -/

/-- A table argument of `py_binary_ufunc`: a static array, or a
`td_ns::NullPtrTable<fn_ptr_t>{}` temporary. -/
inductive TableArg where
  | static (t : TableId)
  | NullPtrTable
  deriving DecidableEq, Repr

/-- The body of a lambda that `init_elementwise_functions` registers: the
function of `elementwise_functions.hpp` it calls, with the table arguments in
the order of the call (the array, queue, dependency and dtype arguments are
the lambda's own parameters). -/
inductive Callee where
  | py_unary_ufunc (output_types contig strided : TableId)
  | py_unary_ufunc_result_type (output_types : TableId)
  | py_binary_ufunc (output_types contig strided : TableId)
      (contig_matrix_contig_row_broadcast contig_row_contig_matrix_broadcast : TableArg)
  | py_binary_ufunc_result_type (output_types : TableId)
  | py_binary_inplace_ufunc (output_types contig strided contig_row_matrix_broadcast : TableId)
  deriving DecidableEq, Repr

/-- A statement of `init_elementwise_functions` with an effect: a call
`impl::populate_X_dispatch_vectors()` or `impl::populate_X_dispatch_tables()`,
or a registration `m.def(name, lambda, ...)`. -/
inductive InitStmt where
  | populate (op : Op)
  | define (name : String) (f : Callee)
  deriving DecidableEq, Repr

/-- The block of `init_elementwise_functions` for `abs`. -/
def init_abs : List InitStmt :=
  [.populate (.unary .abs),
   .define "_abs" (.py_unary_ufunc (.output_typeid_vector .abs)
      (.dispatch_vector .abs .contig) (.dispatch_vector .abs .strided)),
   .define "_abs_result_type" (.py_unary_ufunc_result_type (.output_typeid_vector .abs))]

/-- The block of `init_elementwise_functions` for `add`. -/
def init_add : List InitStmt :=
  [.populate (.binary .add),
   .define "_add" (.py_binary_ufunc (.output_id_table .add)
      (.dispatch_table .add .contig) (.dispatch_table .add .strided)
      (.static (.dispatch_table .add .contig_matrix_contig_row_broadcast))
      (.static (.dispatch_table .add .contig_row_contig_matrix_broadcast))),
   .define "_add_result_type" (.py_binary_ufunc_result_type (.output_id_table .add)),
   .define "_add_inplace" (.py_binary_inplace_ufunc (.output_id_table .add)
      (.dispatch_table .add .inplace_contig)
      (.dispatch_table .add .inplace_strided)
      (.dispatch_table .add .inplace_row_matrix))]

/-- The block of `init_elementwise_functions` for `conj`. -/
def init_conj : List InitStmt :=
  [.populate (.unary .conj),
   .define "_conj" (.py_unary_ufunc (.output_typeid_vector .conj)
      (.dispatch_vector .conj .contig) (.dispatch_vector .conj .strided)),
   .define "_conj_result_type" (.py_unary_ufunc_result_type (.output_typeid_vector .conj))]

/-- The block of `init_elementwise_functions` for `cos`. -/
def init_cos : List InitStmt :=
  [.populate (.unary .cos),
   .define "_cos" (.py_unary_ufunc (.output_typeid_vector .cos)
      (.dispatch_vector .cos .contig) (.dispatch_vector .cos .strided)),
   .define "_cos_result_type" (.py_unary_ufunc_result_type (.output_typeid_vector .cos))]

/-- The block of `init_elementwise_functions` for `true_divide`. -/
def init_true_divide : List InitStmt :=
  [.populate (.binary .true_divide),
   .define "_divide" (.py_binary_ufunc (.output_id_table .true_divide)
      (.dispatch_table .true_divide .contig) (.dispatch_table .true_divide .strided)
      (.static (.dispatch_table .true_divide .contig_matrix_contig_row_broadcast))
      (.static (.dispatch_table .true_divide .contig_row_contig_matrix_broadcast))),
   .define "_divide_result_type" (.py_binary_ufunc_result_type (.output_id_table .true_divide))]

/-- The block of `init_elementwise_functions` for `equal`. -/
def init_equal : List InitStmt :=
  [.populate (.binary .equal),
   .define "_equal" (.py_binary_ufunc (.output_id_table .equal)
      (.dispatch_table .equal .contig) (.dispatch_table .equal .strided)
      .NullPtrTable
      .NullPtrTable),
   .define "_equal_result_type" (.py_binary_ufunc_result_type (.output_id_table .equal))]

/-- The block of `init_elementwise_functions` for `exp`. -/
def init_exp : List InitStmt :=
  [.populate (.unary .exp),
   .define "_exp" (.py_unary_ufunc (.output_typeid_vector .exp)
      (.dispatch_vector .exp .contig) (.dispatch_vector .exp .strided)),
   .define "_exp_result_type" (.py_unary_ufunc_result_type (.output_typeid_vector .exp))]

/-- The block of `init_elementwise_functions` for `expm1`. -/
def init_expm1 : List InitStmt :=
  [.populate (.unary .expm1),
   .define "_expm1" (.py_unary_ufunc (.output_typeid_vector .expm1)
      (.dispatch_vector .expm1 .contig) (.dispatch_vector .expm1 .strided)),
   .define "_expm1_result_type" (.py_unary_ufunc_result_type (.output_typeid_vector .expm1))]

/-- The block of `init_elementwise_functions` for `floor_divide`. -/
def init_floor_divide : List InitStmt :=
  [.populate (.binary .floor_divide),
   .define "_floor_divide" (.py_binary_ufunc (.output_id_table .floor_divide)
      (.dispatch_table .floor_divide .contig) (.dispatch_table .floor_divide .strided)
      .NullPtrTable
      .NullPtrTable),
   .define "_floor_divide_result_type" (.py_binary_ufunc_result_type (.output_id_table .floor_divide))]

/-- The block of `init_elementwise_functions` for `greater`. -/
def init_greater : List InitStmt :=
  [.populate (.binary .greater),
   .define "_greater" (.py_binary_ufunc (.output_id_table .greater)
      (.dispatch_table .greater .contig) (.dispatch_table .greater .strided)
      .NullPtrTable
      .NullPtrTable),
   .define "_greater_result_type" (.py_binary_ufunc_result_type (.output_id_table .greater))]

/-- The block of `init_elementwise_functions` for `greater_equal`. -/
def init_greater_equal : List InitStmt :=
  [.populate (.binary .greater_equal),
   .define "_greater_equal" (.py_binary_ufunc (.output_id_table .greater_equal)
      (.dispatch_table .greater_equal .contig) (.dispatch_table .greater_equal .strided)
      .NullPtrTable
      .NullPtrTable),
   .define "_greater_equal_result_type" (.py_binary_ufunc_result_type (.output_id_table .greater_equal))]

/-- The block of `init_elementwise_functions` for `imag`. -/
def init_imag : List InitStmt :=
  [.populate (.unary .imag),
   .define "_imag" (.py_unary_ufunc (.output_typeid_vector .imag)
      (.dispatch_vector .imag .contig) (.dispatch_vector .imag .strided)),
   .define "_imag_result_type" (.py_unary_ufunc_result_type (.output_typeid_vector .imag))]

/-- The block of `init_elementwise_functions` for `isfinite`. -/
def init_isfinite : List InitStmt :=
  [.populate (.unary .isfinite),
   .define "_isfinite" (.py_unary_ufunc (.output_typeid_vector .isfinite)
      (.dispatch_vector .isfinite .contig) (.dispatch_vector .isfinite .strided)),
   .define "_isfinite_result_type" (.py_unary_ufunc_result_type (.output_typeid_vector .isfinite))]

/-- The block of `init_elementwise_functions` for `isinf`. -/
def init_isinf : List InitStmt :=
  [.populate (.unary .isinf),
   .define "_isinf" (.py_unary_ufunc (.output_typeid_vector .isinf)
      (.dispatch_vector .isinf .contig) (.dispatch_vector .isinf .strided)),
   .define "_isinf_result_type" (.py_unary_ufunc_result_type (.output_typeid_vector .isinf))]

/-- The block of `init_elementwise_functions` for `isnan`. -/
def init_isnan : List InitStmt :=
  [.populate (.unary .isnan),
   .define "_isnan" (.py_unary_ufunc (.output_typeid_vector .isnan)
      (.dispatch_vector .isnan .contig) (.dispatch_vector .isnan .strided)),
   .define "_isnan_result_type" (.py_unary_ufunc_result_type (.output_typeid_vector .isnan))]

/-- The block of `init_elementwise_functions` for `less`. -/
def init_less : List InitStmt :=
  [.populate (.binary .less),
   .define "_less" (.py_binary_ufunc (.output_id_table .less)
      (.dispatch_table .less .contig) (.dispatch_table .less .strided)
      .NullPtrTable
      .NullPtrTable),
   .define "_less_result_type" (.py_binary_ufunc_result_type (.output_id_table .less))]

/-- The block of `init_elementwise_functions` for `less_equal`. -/
def init_less_equal : List InitStmt :=
  [.populate (.binary .less_equal),
   .define "_less_equal" (.py_binary_ufunc (.output_id_table .less_equal)
      (.dispatch_table .less_equal .contig) (.dispatch_table .less_equal .strided)
      .NullPtrTable
      .NullPtrTable),
   .define "_less_equal_result_type" (.py_binary_ufunc_result_type (.output_id_table .less_equal))]

/-- The block of `init_elementwise_functions` for `log`. -/
def init_log : List InitStmt :=
  [.populate (.unary .log),
   .define "_log" (.py_unary_ufunc (.output_typeid_vector .log)
      (.dispatch_vector .log .contig) (.dispatch_vector .log .strided)),
   .define "_log_result_type" (.py_unary_ufunc_result_type (.output_typeid_vector .log))]

/-- The block of `init_elementwise_functions` for `log1p`. -/
def init_log1p : List InitStmt :=
  [.populate (.unary .log1p),
   .define "_log1p" (.py_unary_ufunc (.output_typeid_vector .log1p)
      (.dispatch_vector .log1p .contig) (.dispatch_vector .log1p .strided)),
   .define "_log1p_result_type" (.py_unary_ufunc_result_type (.output_typeid_vector .log1p))]

/-- The block of `init_elementwise_functions` for `log2`. -/
def init_log2 : List InitStmt :=
  [.populate (.unary .log2),
   .define "_log2" (.py_unary_ufunc (.output_typeid_vector .log2)
      (.dispatch_vector .log2 .contig) (.dispatch_vector .log2 .strided)),
   .define "_log2_result_type" (.py_unary_ufunc_result_type (.output_typeid_vector .log2))]

/-- The block of `init_elementwise_functions` for `log10`. -/
def init_log10 : List InitStmt :=
  [.populate (.unary .log10),
   .define "_log10" (.py_unary_ufunc (.output_typeid_vector .log10)
      (.dispatch_vector .log10 .contig) (.dispatch_vector .log10 .strided)),
   .define "_log10_result_type" (.py_unary_ufunc_result_type (.output_typeid_vector .log10))]

/-- The block of `init_elementwise_functions` for `logical_and`. -/
def init_logical_and : List InitStmt :=
  [.populate (.binary .logical_and),
   .define "_logical_and" (.py_binary_ufunc (.output_id_table .logical_and)
      (.dispatch_table .logical_and .contig) (.dispatch_table .logical_and .strided)
      .NullPtrTable
      .NullPtrTable),
   .define "_logical_and_result_type" (.py_binary_ufunc_result_type (.output_id_table .logical_and))]

/-- The block of `init_elementwise_functions` for `logical_not`. -/
def init_logical_not : List InitStmt :=
  [.populate (.unary .logical_not),
   .define "_logical_not" (.py_unary_ufunc (.output_typeid_vector .logical_not)
      (.dispatch_vector .logical_not .contig) (.dispatch_vector .logical_not .strided)),
   .define "_logical_not_result_type" (.py_unary_ufunc_result_type (.output_typeid_vector .logical_not))]

/-- The block of `init_elementwise_functions` for `logical_or`. -/
def init_logical_or : List InitStmt :=
  [.populate (.binary .logical_or),
   .define "_logical_or" (.py_binary_ufunc (.output_id_table .logical_or)
      (.dispatch_table .logical_or .contig) (.dispatch_table .logical_or .strided)
      .NullPtrTable
      .NullPtrTable),
   .define "_logical_or_result_type" (.py_binary_ufunc_result_type (.output_id_table .logical_or))]

/-- The block of `init_elementwise_functions` for `logical_xor`. -/
def init_logical_xor : List InitStmt :=
  [.populate (.binary .logical_xor),
   .define "_logical_xor" (.py_binary_ufunc (.output_id_table .logical_xor)
      (.dispatch_table .logical_xor .contig) (.dispatch_table .logical_xor .strided)
      .NullPtrTable
      .NullPtrTable),
   .define "_logical_xor_result_type" (.py_binary_ufunc_result_type (.output_id_table .logical_xor))]

/-- The block of `init_elementwise_functions` for `multiply`. -/
def init_multiply : List InitStmt :=
  [.populate (.binary .multiply),
   .define "_multiply" (.py_binary_ufunc (.output_id_table .multiply)
      (.dispatch_table .multiply .contig) (.dispatch_table .multiply .strided)
      (.static (.dispatch_table .multiply .contig_matrix_contig_row_broadcast))
      (.static (.dispatch_table .multiply .contig_row_contig_matrix_broadcast))),
   .define "_multiply_result_type" (.py_binary_ufunc_result_type (.output_id_table .multiply)),
   .define "_multiply_inplace" (.py_binary_inplace_ufunc (.output_id_table .multiply)
      (.dispatch_table .multiply .inplace_contig)
      (.dispatch_table .multiply .inplace_strided)
      (.dispatch_table .multiply .inplace_row_matrix))]

/-- The block of `init_elementwise_functions` for `negative`. -/
def init_negative : List InitStmt :=
  [.populate (.unary .negative),
   .define "_negative" (.py_unary_ufunc (.output_typeid_vector .negative)
      (.dispatch_vector .negative .contig) (.dispatch_vector .negative .strided)),
   .define "_negative_result_type" (.py_unary_ufunc_result_type (.output_typeid_vector .negative))]

/-- The block of `init_elementwise_functions` for `not_equal`. -/
def init_not_equal : List InitStmt :=
  [.populate (.binary .not_equal),
   .define "_not_equal" (.py_binary_ufunc (.output_id_table .not_equal)
      (.dispatch_table .not_equal .contig) (.dispatch_table .not_equal .strided)
      .NullPtrTable
      .NullPtrTable),
   .define "_not_equal_result_type" (.py_binary_ufunc_result_type (.output_id_table .not_equal))]

/-- The block of `init_elementwise_functions` for `positive`. -/
def init_positive : List InitStmt :=
  [.populate (.unary .positive),
   .define "_positive" (.py_unary_ufunc (.output_typeid_vector .positive)
      (.dispatch_vector .positive .contig) (.dispatch_vector .positive .strided)),
   .define "_positive_result_type" (.py_unary_ufunc_result_type (.output_typeid_vector .positive))]

/-- The block of `init_elementwise_functions` for `pow`. -/
def init_pow : List InitStmt :=
  [.populate (.binary .pow),
   .define "_pow" (.py_binary_ufunc (.output_id_table .pow)
      (.dispatch_table .pow .contig) (.dispatch_table .pow .strided)
      .NullPtrTable
      .NullPtrTable),
   .define "_pow_result_type" (.py_binary_ufunc_result_type (.output_id_table .pow))]

/-- The block of `init_elementwise_functions` for `proj`. -/
def init_proj : List InitStmt :=
  [.populate (.unary .proj),
   .define "_proj" (.py_unary_ufunc (.output_typeid_vector .proj)
      (.dispatch_vector .proj .contig) (.dispatch_vector .proj .strided)),
   .define "_proj_result_type" (.py_unary_ufunc_result_type (.output_typeid_vector .proj))]

/-- The block of `init_elementwise_functions` for `real`. -/
def init_real : List InitStmt :=
  [.populate (.unary .real),
   .define "_real" (.py_unary_ufunc (.output_typeid_vector .real)
      (.dispatch_vector .real .contig) (.dispatch_vector .real .strided)),
   .define "_real_result_type" (.py_unary_ufunc_result_type (.output_typeid_vector .real))]

/-- The block of `init_elementwise_functions` for `sin`. -/
def init_sin : List InitStmt :=
  [.populate (.unary .sin),
   .define "_sin" (.py_unary_ufunc (.output_typeid_vector .sin)
      (.dispatch_vector .sin .contig) (.dispatch_vector .sin .strided)),
   .define "_sin_result_type" (.py_unary_ufunc_result_type (.output_typeid_vector .sin))]

/-- The block of `init_elementwise_functions` for `square`. -/
def init_square : List InitStmt :=
  [.populate (.unary .square),
   .define "_square" (.py_unary_ufunc (.output_typeid_vector .square)
      (.dispatch_vector .square .contig) (.dispatch_vector .square .strided)),
   .define "_square_result_type" (.py_unary_ufunc_result_type (.output_typeid_vector .square))]

/-- The block of `init_elementwise_functions` for `sqrt`. -/
def init_sqrt : List InitStmt :=
  [.populate (.unary .sqrt),
   .define "_sqrt" (.py_unary_ufunc (.output_typeid_vector .sqrt)
      (.dispatch_vector .sqrt .contig) (.dispatch_vector .sqrt .strided)),
   .define "_sqrt_result_type" (.py_unary_ufunc_result_type (.output_typeid_vector .sqrt))]

/-- The block of `init_elementwise_functions` for `subtract`. -/
def init_subtract : List InitStmt :=
  [.populate (.binary .subtract),
   .define "_subtract" (.py_binary_ufunc (.output_id_table .subtract)
      (.dispatch_table .subtract .contig) (.dispatch_table .subtract .strided)
      (.static (.dispatch_table .subtract .contig_matrix_contig_row_broadcast))
      (.static (.dispatch_table .subtract .contig_row_contig_matrix_broadcast))),
   .define "_subtract_result_type" (.py_binary_ufunc_result_type (.output_id_table .subtract)),
   .define "_subtract_inplace" (.py_binary_inplace_ufunc (.output_id_table .subtract)
      (.dispatch_table .subtract .inplace_contig)
      (.dispatch_table .subtract .inplace_strided)
      (.dispatch_table .subtract .inplace_row_matrix))]

/-- Function `void init_elementwise_functions(py::module_ m)`: its populate calls and
registrations, in source order (one braced block per operation). -/
def init_elementwise_functions : List InitStmt :=
  init_abs ++ init_add ++ init_conj ++ init_cos ++ init_true_divide ++
  init_equal ++ init_exp ++ init_expm1 ++ init_floor_divide ++ init_greater ++
  init_greater_equal ++ init_imag ++ init_isfinite ++ init_isinf ++ init_isnan ++
  init_less ++ init_less_equal ++ init_log ++ init_log1p ++ init_log2 ++
  init_log10 ++ init_logical_and ++ init_logical_not ++ init_logical_or ++ init_logical_xor ++
  init_multiply ++ init_negative ++ init_not_equal ++ init_positive ++ init_pow ++
  init_proj ++ init_real ++ init_sin ++ init_square ++ init_sqrt ++
  init_subtract

/-- The registrations of `init_elementwise_functions`: name and lambda body. -/
def registrations : List (String × Callee) :=
  init_elementwise_functions.filterMap fun
    | .define name f => some (name, f)
    | .populate _ => none

/-- The names registered by `init_elementwise_functions`, in source order. -/
def registered_names : List String :=
  registrations.map Prod.fst

/-! ## Result-type queries -/

/-- A call `_result_typeid(arg_typeid, X_output_typeid_vector)` as a step on the
static storage: the array is passed as a pointer to `const int` and is only
read. The step gives the outcome of the call and the storage after it. -/
def call_result_typeid {num_types : Nat} (arg_typeid : Int) (op : UnaryOp)
    (s : Tables num_types) : Except PyError Int × Tables num_types :=
  (_result_typeid num_types arg_typeid (s (.output_typeid_vector op)), s)

/-- Modelled from the spec: the table lookup of the binary result-type query
(`py_binary_ufunc_result_type` of `elementwise_functions.hpp`, which is not
among the sources). Both type codes must be in range, an out-of-range code
fails with a bounds error (a `value_error` here, as in `_result_typeid`);
otherwise the result is the cell of the pair in the output-type table of the
operation. -/
def binary_result_typeid (num_types : Nat) (src1_typeid src2_typeid : Int)
    (output_types_table : Fin num_types → Fin num_types → Int) : Except PyError Int :=
  if h : src1_typeid < 0 ∨ src1_typeid ≥ (num_types : Int) ∨
      src2_typeid < 0 ∨ src2_typeid ≥ (num_types : Int) then
    .error (.value_error "type code is outside of expected bounds")
  else
    .ok (output_types_table ⟨src1_typeid.toNat, by omega⟩ ⟨src2_typeid.toNat, by omega⟩)

/-- Modelled from the spec: the type combinations that the operations support
and what their factories give for them (the factories of
`kernels/elementwise_functions/*.hpp` are not among the sources). A type-map
factory is "a function from a pair (or single) TypeCode to ... a result
TypeCode", "the output type for each supported input type": `unary_result` and
`binary_result` give the output type code of a supported combination and
nothing for an unsupported one. A kernel factory gives a kernel pointer:
`unary_kernel` is the kernel of a variant for a supported type,
`binary_strided` the strided kernel (the "most general case" of the source) of
a supported pair, and `binary_specialised` the pointer of any other variant for
a supported pair, which "may be nullptr". -/
structure TypeSupport (num_types : Nat) where
  unary_result : UnaryOp → Fin num_types → Option (Fin num_types)
  binary_result : BinaryOp → Fin num_types → Fin num_types → Option (Fin num_types)
  unary_kernel : UnaryOp → UnaryVariant → Fin num_types → Nat
  binary_strided : BinaryOp → Fin num_types → Fin num_types → Nat
  binary_specialised : BinaryOp → BinaryVariant → Fin num_types → Fin num_types → fn_ptr_t

/-- Modelled from the spec: the cell of a type map for a combination: the output
type code, and for an unsupported combination the sentinel: "unsupported
entries carry a sentinel (e.g., -1)". -/
def type_map_cell {num_types : Nat} : Option (Fin num_types) → Int
  | some typeid => ((typeid : Nat) : Int)
  | none => -1

/-- Modelled from the spec: the factories of the operations, by the type
combinations that they support: "cells for unsupported combinations receive
null / sentinel", and "null entries signal unsupported type combination": the
strided kernel of a supported combination is not null. -/
def TypeSupport.factories {num_types : Nat} (S : TypeSupport num_types) :
    Factories num_types where
  UnaryTypeMap := fun op i => type_map_cell (S.unary_result op i)
  UnaryKernel := fun op variant i =>
    if (S.unary_result op i).isSome then some (S.unary_kernel op variant i) else none
  BinaryTypeMap := fun op i j => type_map_cell (S.binary_result op i j)
  BinaryKernel := fun op variant i j =>
    if (S.binary_result op i j).isSome then
      if variant = .strided then some (S.binary_strided op i j)
      else S.binary_specialised op variant i j
    else none

/-- An implementation with two type codes in which a unary operation gives the
type of its argument, a binary operation supports the pairs of equal types and
gives that type, and the binary operations have strided kernels only. -/
def same_type_support : TypeSupport 2 where
  unary_result := fun _ i => some i
  binary_result := fun _ i j => if i = j then some i else none
  unary_kernel := fun _ _ _ => 1
  binary_strided := fun _ _ _ => 1
  binary_specialised := fun _ _ _ _ => none

/-- Static storage as the loader leaves it: zero-initialised. -/
def zero_tables (num_types : Nat) : Tables num_types
  | .output_typeid_vector _ => fun _ => 0
  | .dispatch_vector _ _ => fun _ => none
  | .output_id_table _ => fun _ _ => 0
  | .dispatch_table _ _ => fun _ _ => none

/-! ## The shape of the registered functions -/

/-- The lambda calls a dispatch function out of place: `py_unary_ufunc` or
`py_binary_ufunc`. -/
def Callee.is_dispatch : Callee → Bool
  | .py_unary_ufunc _ _ _ => true
  | .py_binary_ufunc _ _ _ _ _ => true
  | _ => false

/-- The lambda calls a result-type query: `py_unary_ufunc_result_type` or
`py_binary_ufunc_result_type`. -/
def Callee.is_result_type : Callee → Bool
  | .py_unary_ufunc_result_type _ => true
  | .py_binary_ufunc_result_type _ => true
  | _ => false

/-- The lambda calls the in-place dispatch function `py_binary_inplace_ufunc`. -/
def Callee.is_inplace : Callee → Bool
  | .py_binary_inplace_ufunc _ _ _ _ => true
  | _ => false

/-- The name `s` ends with `suffix`. -/
def has_suffix (s suffix : String) : Bool :=
  suffix.data.isSuffixOf s.data

/-- A `switch` whose cases return and whose `default:` throws, as a search of
the list of (case label, returned dtype) pairs in source order. Used to reason
about `_dtype_from_typenum`. -/
def switch_lookup : List (Int × dtype) → Int → Except PyError dtype
  | [], _ => .error (.value_error "Unrecognized dst_typeid")
  | (label, d) :: cases, v => if v = label then .ok d else switch_lookup cases v

/-- The cases of the switch of `_dtype_from_typenum`, in source order. -/
def Enumerators.cases (E : Enumerators) : List (Int × dtype) :=
  [(E.BOOL, ⟨"?"⟩), (E.INT8, ⟨"i1"⟩), (E.UINT8, ⟨"u1"⟩), (E.INT16, ⟨"i2"⟩),
    (E.UINT16, ⟨"u2"⟩), (E.INT32, ⟨"i4"⟩), (E.UINT32, ⟨"u4"⟩), (E.INT64, ⟨"i8"⟩),
    (E.UINT64, ⟨"u8"⟩), (E.HALF, ⟨"f2"⟩), (E.FLOAT, ⟨"f4"⟩), (E.DOUBLE, ⟨"f8"⟩),
    (E.CFLOAT, ⟨"c8"⟩), (E.CDOUBLE, ⟨"c16"⟩)]

/-- What a builder call leaves in its target: the values of its factory. -/
def BuilderCall.value {num_types : Nat} (F : Factories num_types) :
    (c : BuilderCall) → Contents num_types c.target
  | .vector_int f _ => F.UnaryTypeMap f
  | .vector_fn f v _ _ => F.UnaryKernel f v
  | .table_int f _ => F.BinaryTypeMap f
  | .table_fn f v _ _ => F.BinaryKernel f v

/-! ## The wiring of the registered functions -/

/-- The statement is a call of a populate routine. -/
def InitStmt.is_populate : InitStmt → Bool
  | .populate _ => true
  | .define _ _ => false

/-- The lambda calls the unary dispatch function `py_unary_ufunc`. -/
def Callee.is_unary_dispatch : Callee → Bool
  | .py_unary_ufunc _ _ _ => true
  | _ => false

/-- The lambda calls the out-of-place binary dispatch function
`py_binary_ufunc`. -/
def Callee.is_binary_dispatch : Callee → Bool
  | .py_binary_ufunc _ _ _ _ _ => true
  | _ => false

/-- The static arrays named in a table argument. -/
def TableArg.tables : TableArg → List TableId
  | .static t => [t]
  | .NullPtrTable => []

/-- The static arrays that the body of a registered lambda names. -/
def Callee.tables : Callee → List TableId
  | .py_unary_ufunc o c s => [o, c, s]
  | .py_unary_ufunc_result_type o => [o]
  | .py_binary_ufunc o c s mr rm => [o, c, s] ++ mr.tables ++ rm.tables
  | .py_binary_ufunc_result_type o => [o]
  | .py_binary_inplace_ufunc o c s b => [o, c, s, b]

/-- The lambda bodies registered for an operation: those that name one of its
static arrays, in source order. -/
def registered_for (op : Op) : List Callee :=
  (registrations.filter fun r => r.2.tables.any fun t => t.op = op).map Prod.snd

/-! ## Consistency of type maps and kernel tables -/

/-- A cell of an output-type table holds a valid type code of
`[0, num_types)`. -/
def is_valid_typeid (num_types : Nat) (typeid : Int) : Prop :=
  0 ≤ typeid ∧ typeid < (num_types : Int)

/-- Factories of an implementation in which every binary operation supports
every pair of types: the result type is the code 0 and every strided kernel is
the kernel at address 1; there are no other kernels. -/
def strided_only_factories (num_types : Nat) : Factories num_types where
  UnaryTypeMap := fun _ _ => -1
  UnaryKernel := fun _ _ _ => none
  BinaryTypeMap := fun _ _ _ => 0
  BinaryKernel := fun _ v _ _ => if v = .strided then some 1 else none

/-! ## The operation dispatcher

The dispatch functions `py_unary_ufunc` and `py_binary_ufunc` are defined in
`elementwise_functions.hpp`, which is not among the sources; the lambdas that
`init_elementwise_functions` registers bind their table arguments. -/

/-- Modelled from the spec: the array view that the dispatcher reads (the array
container is not among the sources): "element type code, shape, strides, byte
offset, backing memory handle, owning execution context", the property "is
C-contiguous" and read-only semantics. `extent` is the number of bytes the view
spans from its offset. -/
structure ArrayView where
  typeid : Int
  shape : List Nat
  strides : List Int
  offset : Nat
  extent : Nat
  memory : Nat
  context : Nat
  c_contiguous : Bool
  writable : Bool
  deriving DecidableEq, Repr

/-- Modelled from the spec: a kernel submitted to a queue, "chained after the
supplied prerequisite handles". -/
structure Submission where
  kernel : Nat
  depends : List Nat
  deriving DecidableEq, Repr

/-- Modelled from the spec: the execution queue, "a single logical ordering
domain", with its context and the work submitted to it so far. A completion
handle is the position of a submission in the queue. -/
structure Queue where
  context : Nat
  submitted : List Submission
  deriving DecidableEq, Repr

/-- Modelled from the spec: the failures of a dispatch call, each "a distinct
failure mode": a type code out of bounds (a contract violation), "shape
mismatch", "unsupported type", "queue/context mismatch", "overlap violation", a
destination with read-only semantics, and "unsupported type combination". -/
inductive DispatchFailure where
  | contract_violation (e : PyError)
  | shape_mismatch
  | unsupported_type
  | queue_context_mismatch
  | overlap_violation
  | read_only_destination
  | unsupported_type_combination
  deriving DecidableEq, Repr

/-- The outcome of a dispatch call: a failure or a completion handle, and the
queue after the call. -/
abbrev DispatchResult := Except DispatchFailure Nat × Queue

/-- Modelled from the spec: two views "overlap in memory": they have the same
backing memory and their byte ranges meet. -/
def ArrayView.overlaps (a b : ArrayView) : Bool :=
  decide (a.memory = b.memory) && decide (a.offset < b.offset + b.extent) &&
    decide (b.offset < a.offset + a.extent)

/-- Modelled from the spec: two views are "the exact same region". -/
def ArrayView.same_region (a b : ArrayView) : Bool :=
  decide (a.memory = b.memory) && decide (a.offset = b.offset) &&
    decide (a.extent = b.extent) && decide (a.shape = b.shape) &&
    decide (a.strides = b.strides)

/-- The cell of a dispatch vector at a type code; `nullptr` when the code is out
of range. -/
def kernel_at (num_types : Nat) (vector : Fin num_types → fn_ptr_t) (typeid : Int) : fn_ptr_t :=
  if h : 0 ≤ typeid ∧ typeid < (num_types : Int) then vector ⟨typeid.toNat, by omega⟩
  else none

/-- The cell of a dispatch table at a pair of type codes; `nullptr` when a code
is out of range. -/
def kernel_at_pair (num_types : Nat) (table : Fin num_types → Fin num_types → fn_ptr_t)
    (typeid1 typeid2 : Int) : fn_ptr_t :=
  if h : (0 ≤ typeid1 ∧ typeid1 < (num_types : Int)) ∧
      (0 ≤ typeid2 ∧ typeid2 < (num_types : Int)) then
    table ⟨typeid1.toNat, by omega⟩ ⟨typeid2.toNat, by omega⟩
  else none

/-- Modelled from the spec: the submission of a kernel: it "submits work to the
queue; returns a new completion handle encoding dependency on the kernel's
submission, chained after the supplied prerequisite handles". -/
def submit (exec_q : Queue) (kernel : Nat) (depends : List Nat) : DispatchResult :=
  (.ok exec_q.submitted.length,
    { exec_q with submitted := exec_q.submitted ++ [{ kernel := kernel, depends := depends }] })

/-- Modelled from the spec: the precondition checks of a unary dispatch call,
giving the failure of the first one that is violated. The output type is
validated first (the dispatcher "consults the Type Promotion Resolver to
validate/derive the output type" before it consults the dispatch table): the
source type code must be in range and the "destination type code equals the
promoted result of source's type code under this operation (else unsupported
type failure)". Then: shapes compatible; source and destination "associated
with a context compatible with the supplied queue"; they "must not overlap in
memory unless they are the exact same region"; a "destination with read-only
semantics is rejected". -/
def unary_precondition_failure (num_types : Nat) (src dst : ArrayView) (exec_q : Queue)
    (output_types : Fin num_types → Int) : Option DispatchFailure :=
  match _result_typeid num_types src.typeid output_types with
  | .error e => some (.contract_violation e)
  | .ok promoted =>
    if dst.typeid ≠ promoted then some .unsupported_type
    else if src.shape ≠ dst.shape then some .shape_mismatch
    else if src.context ≠ exec_q.context ∨ dst.context ≠ exec_q.context then
      some .queue_context_mismatch
    else if src.overlaps dst = true ∧ src.same_region dst = false then
      some .overlap_violation
    else if dst.writable = false then some .read_only_destination
    else none

/-- Modelled from the spec: the unary dispatch function `py_unary_ufunc` with
the table arguments that the registered lambda binds. A violated precondition
rejects the call with "no partial submission". Variant selection, first match
wins: "both source and destination are contiguous in memory → contiguous
kernel", otherwise the strided kernel; a null cell signals "unsupported type
for this op". -/
def py_unary_ufunc (num_types : Nat) (src dst : ArrayView) (exec_q : Queue)
    (depends : List Nat) (output_types : Fin num_types → Int)
    (contig_dispatch_vector strided_dispatch_vector : Fin num_types → fn_ptr_t) :
    DispatchResult :=
  match unary_precondition_failure num_types src dst exec_q output_types with
  | some failure => (.error failure, exec_q)
  | none =>
    let vector :=
      if src.c_contiguous = true ∧ dst.c_contiguous = true then contig_dispatch_vector
      else strided_dispatch_vector
    match kernel_at num_types vector src.typeid with
    | none => (.error .unsupported_type, exec_q)
    | some kernel => submit exec_q kernel depends

/-- Modelled from the spec: a source shape is compatible with the destination
shape: it is that shape, or a lower-rank shape that is broadcast along the
trailing dimensions ("row applied to every row of a matrix"). -/
def shape_broadcasts_to (shape dst_shape : List Nat) : Bool :=
  shape.isSuffixOf dst_shape

/-- Modelled from the spec: the shapes of "matrix op row broadcast": the first
operand is a 2-D block, the second a 1-D row of the length of its last axis,
the destination has the shape of the block. -/
def is_matrix_row_shape (matrix row dst : List Nat) : Bool :=
  match matrix, row with
  | [r, c], [c'] => decide (c = c') && decide (dst = [r, c])
  | _, _ => false

/-- Modelled from the spec: the kernel variants that the shapes of a binary
dispatch call admit, in "decreasing preference": the matrix/row broadcast
variants "when one side is exactly a trailing-dimension broadcast and both
relevant operands are contiguous", the contiguous variant when "both operands
and destination [are] fully contiguous and identically shaped", and the strided
variant, which every call admits. The variant selected by shape is the first of
them. -/
def binary_variant_candidates (src1 src2 dst : ArrayView) : List BinaryVariant :=
  if src1.c_contiguous = true ∧ src2.c_contiguous = true ∧ dst.c_contiguous = true then
    (if is_matrix_row_shape src1.shape src2.shape dst.shape = true then
      [.contig_matrix_contig_row_broadcast] else []) ++
    (if is_matrix_row_shape src2.shape src1.shape dst.shape = true then
      [.contig_row_contig_matrix_broadcast] else []) ++
    (if src1.shape = dst.shape ∧ src2.shape = dst.shape then [.contig] else []) ++
    [.strided]
  else [.strided]

/-- Modelled from the spec: the precondition checks of a binary dispatch call
("same shape as unary, but with two source array views"), giving the failure of
the first one that is violated; the output type is validated first. -/
def binary_precondition_failure (num_types : Nat) (src1 src2 dst : ArrayView)
    (exec_q : Queue) (output_types : Fin num_types → Fin num_types → Int) :
    Option DispatchFailure :=
  match binary_result_typeid num_types src1.typeid src2.typeid output_types with
  | .error e => some (.contract_violation e)
  | .ok promoted =>
    if dst.typeid ≠ promoted then some .unsupported_type
    else if shape_broadcasts_to src1.shape dst.shape = false ∨
        shape_broadcasts_to src2.shape dst.shape = false then some .shape_mismatch
    else if src1.context ≠ exec_q.context ∨ src2.context ≠ exec_q.context ∨
        dst.context ≠ exec_q.context then some .queue_context_mismatch
    else if (src1.overlaps dst = true ∧ src1.same_region dst = false) ∨
        (src2.overlaps dst = true ∧ src2.same_region dst = false) then
      some .overlap_violation
    else if dst.writable = false then some .read_only_destination
    else none

/-- The table of the selected variant among the four kernel slots of
`py_binary_ufunc`; the in-place variants are not among them. -/
def binary_slot {α : Type} (contig strided matrix_row row_matrix : α) : BinaryVariant → α
  | .contig => contig
  | .contig_matrix_contig_row_broadcast => matrix_row
  | .contig_row_contig_matrix_broadcast => row_matrix
  | _ => strided

/-- Modelled from the spec: the binary dispatch function `py_binary_ufunc` with
the table arguments that the registered lambda binds. A violated precondition
rejects the call. The dispatcher "selects the most specific available kernel
variant (contiguous-only, row/matrix-broadcast, or generic strided)": of the
variants that the shapes admit, in decreasing preference, the first whose table
holds a kernel for the pair of type codes. The source says at every call of
`py_binary_ufunc` that the pointers of the contiguous table and of the two
broadcast tables "may be nullptr", passes all-null tables in the broadcast
slots of eleven operations, and calls the strided table the "most general
case": a null cell leaves a variant unavailable, and the next one is taken. The
call fails with "unsupported type combination" when no variant is available. -/
def py_binary_ufunc (num_types : Nat) (src1 src2 dst : ArrayView) (exec_q : Queue)
    (depends : List Nat) (output_types : Fin num_types → Fin num_types → Int)
    (contig_dispatch_table strided_dispatch_table
      contig_matrix_contig_row_broadcast_dispatch_table
      contig_row_contig_matrix_broadcast_dispatch_table :
      Fin num_types → Fin num_types → fn_ptr_t) : DispatchResult :=
  match binary_precondition_failure num_types src1 src2 dst exec_q output_types with
  | some failure => (.error failure, exec_q)
  | none =>
    match (binary_variant_candidates src1 src2 dst).findSome? (fun variant =>
      kernel_at_pair num_types
        (binary_slot contig_dispatch_table strided_dispatch_table
          contig_matrix_contig_row_broadcast_dispatch_table
          contig_row_contig_matrix_broadcast_dispatch_table variant)
        src1.typeid src2.typeid) with
    | none => (.error .unsupported_type_combination, exec_q)
    | some kernel => submit exec_q kernel depends

/-- The table that a kernel-table argument denotes in the static storage: the
contents of the static array, or the all-null table of
`td_ns::NullPtrTable<fn_ptr_t>{}`. -/
def TableArg.resolve {num_types : Nat} (s : Tables num_types) :
    TableArg → Fin num_types → Fin num_types → fn_ptr_t
  | .static (.dispatch_table op variant) => s (.dispatch_table op variant)
  | _ => fun _ _ => none

/-- A call of a registered unary dispatch lambda: `py_unary_ufunc` applied to
the lambda's parameters and to the static arrays that its body names. -/
def call_unary {num_types : Nat} (s : Tables num_types) (src dst : ArrayView)
    (exec_q : Queue) (depends : List Nat) : Callee → Option DispatchResult
  | .py_unary_ufunc (.output_typeid_vector o) (.dispatch_vector c vc)
      (.dispatch_vector st vs) =>
    some (py_unary_ufunc num_types src dst exec_q depends (s (.output_typeid_vector o))
      (s (.dispatch_vector c vc)) (s (.dispatch_vector st vs)))
  | _ => none

/-- A C-contiguous, writable array view of the given element type code and
shape in the memory block `memory`, owned by the context 0. -/
def contiguous_view (typeid : Int) (shape : List Nat) (memory : Nat) : ArrayView where
  typeid := typeid
  shape := shape
  strides := []
  offset := 0
  extent := 8 * shape.prod
  memory := memory
  context := 0
  c_contiguous := true
  writable := true

/-- A queue of the context 0 to which nothing has been submitted. -/
def empty_queue : Queue where
  context := 0
  submitted := []

/-! ## The device manager

`dpctl_sycl_device_manager.h` declares and documents the functions below; their
definitions and the flag enumerations `DPCTLSyclBackendType` and
`DPCTLSyclDeviceType` are not among the sources. -/

/-- Modelled from the spec: a device record, "attributes: backend tag, device
kind, a device handle". The backend and the kind are given by their bit flags
(`DPCTLSyclBackendType`, `DPCTLSyclDeviceType`), which are "OR-ed" into a
device identifier. -/
structure DeviceRecord where
  backend : Nat
  kind : Nat
  handle : Nat
  deriving DecidableEq, Repr

/-- Modelled from the spec: the flag `DPCTL_OPENCL` of `DPCTLSyclBackendType`
(`dpctl_sycl_enum_types.h` is not among the sources): a backend bit, on a bit
that no device-type flag uses. -/
def DPCTL_OPENCL : Nat := 1 <<< 19

/-- Modelled from the spec: the flag `DPCTL_GPU` of `DPCTLSyclDeviceType`: a
device-kind bit, on a bit that no backend flag uses. -/
def DPCTL_GPU : Nat := 1 <<< 4

/-- Modelled from the spec: the flag `DPCTL_LEVEL_ZERO` of
`DPCTLSyclBackendType`: a second backend bit. -/
def DPCTL_LEVEL_ZERO : Nat := 1 <<< 18

/-- Modelled from the spec: the flag `DPCTL_CPU` of `DPCTLSyclDeviceType`: a
second device-kind bit. -/
def DPCTL_CPU : Nat := 1 <<< 2

/-- Modelled from the spec: the "all backends" part of a mask: the bits of the
backend flags, five bits from bit 16. -/
def DPCTL_ALL_BACKENDS : Nat := 31 <<< 16

/-- Modelled from the spec: the "all kinds" part of a mask: the bits of the
device-type flags, the six bits from bit 0. -/
def DPCTL_ALL : Nat := 63

/-- Modelled from the spec: the device identifier with a part that it omits
filled in. The header documents the identifier as "either one of the enum
values or a bitwise OR-ed combination", with
`DPCTLDeviceMgr_GetDevices(DPCTL_OPENCL)` "Returns all opencl devices" and
`DPCTLDeviceMgr_GetDevices(DPCTL_GPU)` "Returns all gpu devices", and the spec
has "omitted means match all": an identifier with no backend bit stands for
every backend, one with no device-kind bit for every kind. The identifier 0
selects nothing ("mask = 0 (expect empty)") and stays 0. -/
def canonical_identifier (device_identifier : Int) : Int :=
  if device_identifier = 0 then 0
  else if Int.land device_identifier (DPCTL_ALL_BACKENDS : Int) = 0 then
    Int.lor device_identifier (DPCTL_ALL_BACKENDS : Int)
  else if Int.land device_identifier (DPCTL_ALL : Int) = 0 then
    Int.lor device_identifier (DPCTL_ALL : Int)
  else device_identifier

/-- Modelled from the spec: the filter of the device manager, "bitwise AND
semantics: a device matches if its backend bit is set in the mask AND its kind
bit is set in the mask", the mask being the device identifier with an omitted
part filled in. -/
def device_matches (device_identifier : Int) (d : DeviceRecord) : Bool :=
  decide (Int.land (canonical_identifier device_identifier) (d.backend : Int) ≠ 0) &&
    decide (Int.land (canonical_identifier device_identifier) (d.kind : Int) ≠ 0)

/-- Modelled from the spec: `DPCTLDeviceMgr_GetDevices(int device_identifier)`:
it "enumerates all devices visible to the runtime" (the list `visible`) and
"filters by the combination of backend bits and device-kind bits in the
mask". -/
def DPCTLDeviceMgr_GetDevices (visible : List DeviceRecord) (device_identifier : Int) :
    List DeviceRecord :=
  visible.filter (device_matches device_identifier)

/-- Modelled from the spec: `DPCTLDeviceMgr_GetNumDevices(int
device_identifier)`: "equivalent to len(getDevices(filterMask)) but must not
allocate the intermediate list — a separate counting path": a counter that is
incremented for every visible device that matches. -/
def DPCTLDeviceMgr_GetNumDevices (visible : List DeviceRecord) (device_identifier : Int) :
    Nat :=
  visible.foldl (fun n d => if device_matches device_identifier d = true then n + 1 else n) 0

/-- A platform with an OpenCL CPU, an OpenCL GPU and a Level Zero GPU. -/
def example_devices : List DeviceRecord :=
  [{ backend := DPCTL_OPENCL, kind := DPCTL_CPU, handle := 0 },
   { backend := DPCTL_OPENCL, kind := DPCTL_GPU, handle := 1 },
   { backend := DPCTL_LEVEL_ZERO, kind := DPCTL_GPU, handle := 2 }]

/-- The backend of the device is given by backend bits alone and its kind by
device-type bits alone. -/
def DeviceRecord.has_known_flags (d : DeviceRecord) : Bool :=
  decide (DPCTL_ALL_BACKENDS &&& d.backend ≠ 0) && decide (DPCTL_ALL &&& d.backend = 0) &&
    decide (DPCTL_ALL &&& d.kind ≠ 0) && decide (DPCTL_ALL_BACKENDS &&& d.kind = 0)

/-! ## The names of the operations -/

/-- The name of a unary operation in the names under which its functions are
registered (`_abs`, `_abs_result_type`); it is the prefix of the static arrays
of the operation. -/
def UnaryOp.name : UnaryOp → String
  | .abs => "abs"
  | .conj => "conj"
  | .cos => "cos"
  | .exp => "exp"
  | .expm1 => "expm1"
  | .imag => "imag"
  | .isfinite => "isfinite"
  | .isinf => "isinf"
  | .isnan => "isnan"
  | .log => "log"
  | .log1p => "log1p"
  | .log2 => "log2"
  | .log10 => "log10"
  | .logical_not => "logical_not"
  | .negative => "negative"
  | .positive => "positive"
  | .proj => "proj"
  | .real => "real"
  | .sin => "sin"
  | .square => "square"
  | .sqrt => "sqrt"

/-- The name of a binary operation in the names under which its functions are
registered (`_add`, `_add_result_type`, `_add_inplace`); it is the prefix of
the static arrays of the operation, except that the section `B08: DIVIDE`
registers the operation of the arrays `true_divide_*` as `_divide`. -/
def BinaryOp.name : BinaryOp → String
  | .add => "add"
  | .true_divide => "divide"
  | .equal => "equal"
  | .floor_divide => "floor_divide"
  | .greater => "greater"
  | .greater_equal => "greater_equal"
  | .less => "less"
  | .less_equal => "less_equal"
  | .logical_and => "logical_and"
  | .logical_or => "logical_or"
  | .logical_xor => "logical_xor"
  | .multiply => "multiply"
  | .not_equal => "not_equal"
  | .pow => "pow"
  | .subtract => "subtract"

/-- The name of an operation in its registered names. -/
def Op.name : Op → String
  | .unary op => op.name
  | .binary op => op.name

/-- The static arrays that a statement of `init_elementwise_functions` binds for
later reads: those named in the lambda of a registration; a populate call binds
none. -/
def InitStmt.tables : InitStmt → List TableId
  | .populate _ => []
  | .define _ f => f.tables

/-- The argument of a broadcast slot of `py_binary_ufunc` that names the table
of the given variant of the operation when the file declares that table, and
is an all-null `NullPtrTable` otherwise. -/
def own_broadcast_arg (op : BinaryOp) (variant : BinaryVariant) : TableArg :=
  if TableId.dispatch_table op variant ∈ declared_tables (.binary op) then
    .static (.dispatch_table op variant)
  else .NullPtrTable

/-! ## The range of the type codes -/

/-- Modelled from the spec: the numbering of the type registry
(`utils/type_dispatch.hpp`, which declares `typenum_t` and `num_types`, is not
among the sources): a type code is an "integral identifier, 0..N-1, N = number
of supported element types", "a dense array index": the enumerators are exactly
the integers of `[0, num_types)`. -/
def Enumerators.DenseBelow (E : Enumerators) (num_types : Nat) : Prop :=
  ∀ t : Int, t ∈ E.labels ↔ (0 ≤ t ∧ t < (num_types : Int))

/-- Modelled from the spec: the constant `td_ns::num_types` of the type
registry: "N = number of supported element types": the number of the
enumerators of the registry. -/
def Enumerators.num_types (E : Enumerators) : Nat :=
  E.labels.length

/-! # Theorems -/

/-! ## The builders and the populate routines -/

theorem foldl_update_apply {α : Type} {n : Nat} (factory : Fin n → α) (l : List (Fin n))
    (v : Fin n → α) (j : Fin n) :
    (l.foldl (fun v i => Function.update v i (factory i)) v) j =
      if j ∈ l then factory j else v j := by
  induction l generalizing v with
  | nil => simp
  | cons a l ih =>
    rw [List.foldl_cons, ih]
    by_cases hj : j ∈ l
    · simp [hj]
    · by_cases ha : j = a
      · subst ha; simp [hj]
      · simp [hj, ha, Function.update_noteq ha]

theorem populate_dispatch_vector_eq {α : Type} (n : Nat) (factory vector : Fin n → α) :
    populate_dispatch_vector n factory vector = factory := by
  funext j
  simp [populate_dispatch_vector, foldl_update_apply, List.mem_finRange]

theorem foldl_update_row_apply {α : Type} {n : Nat} (factory : Fin n → Fin n → α) (i : Fin n)
    (l : List (Fin n)) (t : Fin n → Fin n → α) (i' j' : Fin n) :
    (l.foldl (fun t j => Function.update t i (Function.update (t i) j (factory i j))) t) i' j' =
      if i' = i ∧ j' ∈ l then factory i j' else t i' j' := by
  induction l generalizing t with
  | nil => simp
  | cons a l ih =>
    rw [List.foldl_cons, ih]
    by_cases hi : i' = i
    · subst hi
      by_cases hj : j' ∈ l
      · simp [hj]
      · by_cases ha : j' = a
        · subst ha; simp [hj]
        · simp [hj, ha, Function.update_noteq ha]
    · simp [hi, Function.update_noteq hi]

theorem foldl_update_table_apply {α : Type} {n : Nat} (factory : Fin n → Fin n → α)
    (lo : List (Fin n)) (t : Fin n → Fin n → α) (i' j' : Fin n) :
    (lo.foldl (fun t i => (List.finRange n).foldl
      (fun t j => Function.update t i (Function.update (t i) j (factory i j))) t) t) i' j' =
      if i' ∈ lo then factory i' j' else t i' j' := by
  induction lo generalizing t with
  | nil => simp
  | cons a l ih =>
    rw [List.foldl_cons, ih]
    by_cases hi : i' ∈ l
    · simp [hi]
    · by_cases ha : i' = a
      · subst ha; simp [hi, foldl_update_row_apply, List.mem_finRange]
      · simp [hi, ha, foldl_update_row_apply]

theorem populate_dispatch_table_eq {α : Type} (n : Nat) (factory table : Fin n → Fin n → α) :
    populate_dispatch_table n factory table = factory := by
  funext i j
  simp [populate_dispatch_table, foldl_update_table_apply, List.mem_finRange]

theorem BuilderCall.exec_eq {n : Nat} (F : Factories n) (c : BuilderCall) (s : Tables n) :
    c.exec F s = Function.update s c.target (c.value F) := by
  cases c <;>
    simp [BuilderCall.exec, BuilderCall.value, BuilderCall.target,
      populate_dispatch_vector_eq, populate_dispatch_table_eq]

theorem run_populate_nil {n : Nat} (F : Factories n) (s : Tables n) :
    run_populate F [] s = s := rfl

theorem run_populate_cons {n : Nat} (F : Factories n) (c : BuilderCall)
    (body : List BuilderCall) (s : Tables n) :
    run_populate F (c :: body) s = run_populate F body (c.exec F s) := rfl

theorem run_populate_frame {n : Nat} (F : Factories n) (body : List BuilderCall)
    (s : Tables n) (t : TableId) (ht : t ∉ body.map BuilderCall.target) :
    run_populate F body s t = s t := by
  induction body generalizing s with
  | nil => rfl
  | cons c body ih =>
    simp only [List.map_cons, List.mem_cons, not_or] at ht
    rw [run_populate_cons, ih _ ht.2, BuilderCall.exec_eq, Function.update_noteq ht.1]

theorem run_populate_congr {n : Nat} (F : Factories n) (body : List BuilderCall)
    (s s' : Tables n) (h : ∀ t, t ∉ body.map BuilderCall.target → s t = s' t) :
    run_populate F body s = run_populate F body s' := by
  induction body generalizing s s' with
  | nil =>
    funext t
    exact h t (by simp)
  | cons c body ih =>
    rw [run_populate_cons, run_populate_cons]
    apply ih
    intro t ht
    rw [BuilderCall.exec_eq, BuilderCall.exec_eq]
    by_cases hc : t = c.target
    · subst hc; simp
    · rw [Function.update_noteq hc, Function.update_noteq hc]
      exact h t (by simp [hc, ht])

theorem run_populate_idem {n : Nat} (F : Factories n) (body : List BuilderCall)
    (s : Tables n) :
    run_populate F body (run_populate F body s) = run_populate F body s :=
  run_populate_congr F body _ _ (fun t ht => run_populate_frame F body s t ht)

theorem unary_type_map_populated {n : Nat} (F : Factories n) (s : Tables n) (op : UnaryOp) :
    run_populate F (populate_routine (.unary op)) s (.output_typeid_vector op) =
      F.UnaryTypeMap op := by
  cases op <;>
    simp [populate_routine, run_populate, BuilderCall.exec_eq, BuilderCall.target,
      BuilderCall.value,
      populate_abs_dispatch_vectors, populate_conj_dispatch_vectors,
      populate_cos_dispatch_vectors, populate_exp_dispatch_vectors,
      populate_expm1_dispatch_vectors, populate_imag_dispatch_vectors,
      populate_isfinite_dispatch_vectors, populate_isinf_dispatch_vectors,
      populate_isnan_dispatch_vectors, populate_log_dispatch_vectors,
      populate_log1p_dispatch_vectors, populate_log2_dispatch_vectors,
      populate_log10_dispatch_vectors, populate_logical_not_dispatch_vectors,
      populate_negative_dispatch_vectors, populate_positive_dispatch_vectors,
      populate_proj_dispatch_vectors, populate_real_dispatch_vectors,
      populate_sin_dispatch_vectors, populate_square_dispatch_vectors,
      populate_sqrt_dispatch_vectors]

theorem binary_type_map_populated {n : Nat} (F : Factories n) (s : Tables n) (op : BinaryOp) :
    run_populate F (populate_routine (.binary op)) s (.output_id_table op) =
      F.BinaryTypeMap op := by
  cases op <;>
    simp [populate_routine, run_populate, BuilderCall.exec_eq, BuilderCall.target,
      BuilderCall.value,
      populate_add_dispatch_tables, populate_true_divide_dispatch_tables,
      populate_equal_dispatch_tables, populate_floor_divide_dispatch_tables,
      populate_greater_dispatch_tables, populate_greater_equal_dispatch_tables,
      populate_less_dispatch_tables, populate_less_equal_dispatch_tables,
      populate_logical_and_dispatch_tables, populate_logical_or_dispatch_tables,
      populate_logical_xor_dispatch_tables, populate_multiply_dispatch_tables,
      populate_not_equal_dispatch_tables, populate_pow_dispatch_tables,
      populate_subtract_dispatch_tables]

/-! ## `_result_typeid` -/

theorem result_typeid_of_out_of_range (n : Nat) (a : Int) (tbl : Fin n → Int)
    (h : a < 0 ∨ a ≥ (n : Int)) :
    _result_typeid n a tbl = .error (.value_error
      ("Input typeid " ++ toString a ++ " is outside of expected bounds.")) := by
  simp [_result_typeid, h]

theorem result_typeid_of_in_range (n : Nat) (i : Fin n) (tbl : Fin n → Int) :
    _result_typeid n ((i : Nat) : Int) tbl = .ok (tbl i) := by
  have h : ¬ (((i : Nat) : Int) < 0 ∨ ((i : Nat) : Int) ≥ (n : Int)) := by
    have := i.isLt
    omega
  simp [_result_typeid, h]

theorem in_range_eq_fin (n : Nat) (a : Int) (h0 : 0 ≤ a) (hn : a < (n : Int)) :
    ∃ i : Fin n, ((i : Nat) : Int) = a :=
  ⟨⟨a.toNat, by omega⟩, by simp [Int.toNat_of_nonneg h0]⟩

/-- C1: `_result_typeid` throws a value error exactly when the type code is
negative or at least `num_types`, for every table; for such a code the outcome
is the error that names the code, whatever the table holds, so the code is
neither wrapped nor clamped nor used as an index. -/
theorem result_typeid_error_iff_out_of_range (num_types : Nat) (arg_typeid : Int)
    (fn_output_id : Fin num_types → Int) :
    ((∃ what, _result_typeid num_types arg_typeid fn_output_id =
        .error (.value_error what)) ↔
      (arg_typeid < 0 ∨ arg_typeid ≥ (num_types : Int))) ∧
    ((arg_typeid < 0 ∨ arg_typeid ≥ (num_types : Int)) →
      ∀ table : Fin num_types → Int, _result_typeid num_types arg_typeid table =
        .error (.value_error
          ("Input typeid " ++ toString arg_typeid ++ " is outside of expected bounds."))) := by
  refine ⟨⟨?_, ?_⟩, ?_⟩
  · rintro ⟨what, hw⟩
    by_contra hin
    have h0 : 0 ≤ arg_typeid := by omega
    have hn : arg_typeid < (num_types : Int) := by omega
    obtain ⟨i, hi⟩ := in_range_eq_fin num_types arg_typeid h0 hn
    rw [← hi, result_typeid_of_in_range] at hw
    cases hw
  · intro h
    exact ⟨_, result_typeid_of_out_of_range num_types arg_typeid fn_output_id h⟩
  · intro h table
    exact result_typeid_of_out_of_range num_types arg_typeid table h

/-- Witness of C1 at the code 3 of a table of three cells. -/
theorem result_typeid_error_iff_out_of_range_witness :
    _result_typeid 3 3 ![5, -1, 7] =
      .error (.value_error "Input typeid 3 is outside of expected bounds.") :=
  (result_typeid_error_iff_out_of_range 3 3 ![0, 0, 0]).2 (by decide) ![5, -1, 7]

/-- C2: for an in-range type code, `_result_typeid` returns exactly the cell of
the table at that code, for every table. -/
theorem result_typeid_is_table_lookup (num_types : Nat) (arg_typeid : Int)
    (fn_output_id : Fin num_types → Int) (h0 : 0 ≤ arg_typeid)
    (hn : arg_typeid < (num_types : Int)) :
    ∃ i : Fin num_types, ((i : Nat) : Int) = arg_typeid ∧
      _result_typeid num_types arg_typeid fn_output_id = .ok (fn_output_id i) := by
  obtain ⟨i, hi⟩ := in_range_eq_fin num_types arg_typeid h0 hn
  exact ⟨i, hi, by rw [← hi, result_typeid_of_in_range]⟩

/-- Witness of C2 at the code 1 of a table of three cells. -/
theorem result_typeid_is_table_lookup_witness :
    ∃ i : Fin 3, ((i : Nat) : Int) = 1 ∧
      _result_typeid 3 1 ![5, -1, 7] = .ok ((![5, -1, 7] : Fin 3 → Int) i) :=
  result_typeid_is_table_lookup 3 1 ![5, -1, 7] (by decide) (by decide)

/-- C3: when the cell of an in-range type code holds the unsupported sentinel
(a negative value), `_result_typeid` returns that negative value as its result
and throws nothing; and whenever `_result_typeid` throws, the type code is out
of range. -/
theorem result_typeid_returns_sentinel (num_types : Nat) (fn_output_id : Fin num_types → Int)
    (i : Fin num_types) (hs : fn_output_id i < 0) :
    (∃ v, _result_typeid num_types ((i : Nat) : Int) fn_output_id = .ok v ∧
      v = fn_output_id i ∧ v < 0) ∧
    (∀ e, _result_typeid num_types ((i : Nat) : Int) fn_output_id ≠ .error e) ∧
    (∀ (arg_typeid : Int) (e : PyError),
      _result_typeid num_types arg_typeid fn_output_id = .error e →
        arg_typeid < 0 ∨ arg_typeid ≥ (num_types : Int)) := by
  refine ⟨⟨_, result_typeid_of_in_range num_types i fn_output_id, rfl, hs⟩, ?_, ?_⟩
  · intro e he
    rw [result_typeid_of_in_range] at he
    cases he
  · intro a e he
    by_contra hin
    have h0 : 0 ≤ a := by omega
    have hn : a < (num_types : Int) := by omega
    obtain ⟨j, hj⟩ := in_range_eq_fin num_types a h0 hn
    rw [← hj, result_typeid_of_in_range] at he
    cases he

/-- Witness of C3 at the code 1, whose cell holds the sentinel `-1`. -/
theorem result_typeid_returns_sentinel_witness :
    ∃ v, _result_typeid 3 (((1 : Fin 3) : Nat) : Int) ![5, -1, 7] = .ok v ∧
      v = (![5, -1, 7] : Fin 3 → Int) 1 ∧ v < 0 :=
  (result_typeid_returns_sentinel 3 ![5, -1, 7] 1 (by decide)).1

/-! ## `_dtype_from_typenum` -/

theorem dtype_from_typenum_eq_switch (E : Enumerators) (t : Int) :
    _dtype_from_typenum E t = switch_lookup E.cases t := rfl

theorem Enumerators.cases_labels (E : Enumerators) : E.cases.map Prod.fst = E.labels := rfl

theorem Enumerators.labels_nodup (E : Enumerators) : E.labels.Nodup := E.distinct

theorem switch_lookup_ok_mem (l : List (Int × dtype)) (t : Int) (d : dtype)
    (h : switch_lookup l t = .ok d) : (t, d) ∈ l := by
  induction l with
  | nil => cases h
  | cons c l ih =>
    obtain ⟨label, d'⟩ := c
    simp only [switch_lookup] at h
    by_cases ht : t = label
    · rw [if_pos ht] at h
      cases h
      simp [ht]
    · rw [if_neg ht] at h
      exact List.mem_cons_of_mem _ (ih h)

theorem switch_lookup_not_mem (l : List (Int × dtype)) (t : Int)
    (h : t ∉ l.map Prod.fst) :
    switch_lookup l t = .error (.value_error "Unrecognized dst_typeid") := by
  induction l with
  | nil => rfl
  | cons c l ih =>
    obtain ⟨label, d'⟩ := c
    simp only [List.map_cons, List.mem_cons, not_or] at h
    simp only [switch_lookup]
    rw [if_neg h.1]
    exact ih h.2

theorem switch_lookup_mem (l : List (Int × dtype)) (t : Int) (d : dtype)
    (hl : (l.map Prod.fst).Nodup) (h : (t, d) ∈ l) : switch_lookup l t = .ok d := by
  induction l with
  | nil => cases h
  | cons c l ih =>
    obtain ⟨label, d'⟩ := c
    simp only [List.map_cons, List.nodup_cons] at hl
    simp only [switch_lookup]
    rcases List.mem_cons.mp h with heq | hmem
    · cases heq
      rw [if_pos rfl]
    · have hne : t ≠ label := by
        rintro rfl
        exact hl.1 (List.mem_map.mpr ⟨(t, d), hmem, rfl⟩)
      rw [if_neg hne]
      exact ih hl.2 hmem

theorem dtype_from_typenum_of_case (E : Enumerators) (t : Int) (d : dtype)
    (h : (t, d) ∈ E.cases) : _dtype_from_typenum E t = .ok d :=
  switch_lookup_mem E.cases t d E.labels_nodup h

theorem dtype_from_typenum_ok_iff (E : Enumerators) (t : Int) :
    (∃ d, _dtype_from_typenum E t = .ok d) ↔ t ∈ E.labels := by
  constructor
  · rintro ⟨d, hd⟩
    rw [← E.cases_labels]
    exact List.mem_map.mpr ⟨(t, d), switch_lookup_ok_mem _ _ _ hd, rfl⟩
  · intro ht
    rw [← E.cases_labels] at ht
    obtain ⟨⟨t', d⟩, hmem, rfl⟩ := List.mem_map.mp ht
    exact ⟨d, dtype_from_typenum_of_case E _ d hmem⟩

theorem recognised_eq_labels (E : Enumerators) :
    {t : Int | ∃ d, _dtype_from_typenum E t = .ok d} = ↑E.labels.toFinset := by
  ext t
  simp [dtype_from_typenum_ok_iff]

theorem recognised_ncard (E : Enumerators) :
    Set.ncard {t : Int | ∃ d, _dtype_from_typenum E t = .ok d} = 14 := by
  rw [recognised_eq_labels, Set.ncard_coe_Finset, List.toFinset_card_of_nodup E.labels_nodup]
  rfl

/-- C5, as the claim states it, fails: with the enumerators numbered from 0 the
type codes that `_dtype_from_typenum` recognises are not 13 in number. -/
theorem recognised_type_codes_not_thirteen :
    ¬ Set.ncard {t : Int | ∃ d, _dtype_from_typenum td_ns t = .ok d} = 13 := by
  rw [recognised_ncard]
  decide

/-- C5, amended: the set of type codes that `_dtype_from_typenum` recognises
(maps to a dtype instead of throwing) has exactly 14 members, the 14 case
labels of its switch, whatever values the enumeration gives them. -/
theorem recognised_type_codes_fourteen (E : Enumerators) :
    Set.ncard {t : Int | ∃ d, _dtype_from_typenum E t = .ok d} = 14 ∧
    E.labels.length = 14 ∧ E.labels.Nodup ∧
    ∀ t : Int, (∃ d, _dtype_from_typenum E t = .ok d) ↔ t ∈ E.labels :=
  ⟨recognised_ncard E, rfl, E.labels_nodup, dtype_from_typenum_ok_iff E⟩

/-- C6: `_dtype_from_typenum` maps each enumerator to the dtype of its kind and
width, and every type code it maps to a dtype is one of these 14 enumerators
with that dtype: boolean, signed and unsigned integers of 8 to 64 bits, half,
single and double floats, single and double complex. -/
theorem dtype_from_typenum_table (E : Enumerators) :
    (_dtype_from_typenum E E.BOOL = .ok ⟨"?"⟩ ∧
     _dtype_from_typenum E E.INT8 = .ok ⟨"i1"⟩ ∧
     _dtype_from_typenum E E.INT16 = .ok ⟨"i2"⟩ ∧
     _dtype_from_typenum E E.INT32 = .ok ⟨"i4"⟩ ∧
     _dtype_from_typenum E E.INT64 = .ok ⟨"i8"⟩ ∧
     _dtype_from_typenum E E.UINT8 = .ok ⟨"u1"⟩ ∧
     _dtype_from_typenum E E.UINT16 = .ok ⟨"u2"⟩ ∧
     _dtype_from_typenum E E.UINT32 = .ok ⟨"u4"⟩ ∧
     _dtype_from_typenum E E.UINT64 = .ok ⟨"u8"⟩ ∧
     _dtype_from_typenum E E.HALF = .ok ⟨"f2"⟩ ∧
     _dtype_from_typenum E E.FLOAT = .ok ⟨"f4"⟩ ∧
     _dtype_from_typenum E E.DOUBLE = .ok ⟨"f8"⟩ ∧
     _dtype_from_typenum E E.CFLOAT = .ok ⟨"c8"⟩ ∧
     _dtype_from_typenum E E.CDOUBLE = .ok ⟨"c16"⟩) ∧
    ∀ (t : Int) (d : dtype), _dtype_from_typenum E t = .ok d →
      (t, d.format) ∈ [(E.BOOL, "?"), (E.INT8, "i1"), (E.INT16, "i2"), (E.INT32, "i4"),
        (E.INT64, "i8"), (E.UINT8, "u1"), (E.UINT16, "u2"), (E.UINT32, "u4"),
        (E.UINT64, "u8"), (E.HALF, "f2"), (E.FLOAT, "f4"), (E.DOUBLE, "f8"),
        (E.CFLOAT, "c8"), (E.CDOUBLE, "c16")] := by
  refine ⟨⟨?_, ?_, ?_, ?_, ?_, ?_, ?_, ?_, ?_, ?_, ?_, ?_, ?_, ?_⟩, ?_⟩
  iterate 14 exact dtype_from_typenum_of_case E _ _ (by simp [Enumerators.cases])
  intro t d h
  have hmem := switch_lookup_ok_mem E.cases t d h
  simp only [Enumerators.cases, List.mem_cons, Prod.mk.injEq, List.mem_singleton,
    List.not_mem_nil, or_false] at hmem
  rcases hmem with h | h | h | h | h | h | h | h | h | h | h | h | h | h <;>
    (obtain ⟨rfl, rfl⟩ := h; simp)

/-- C7: for every type code that is not one of the enumerators of the switch,
`_dtype_from_typenum` throws the value error "Unrecognized dst_typeid"; it
returns no dtype for such a code. -/
theorem dtype_from_typenum_unrecognized (E : Enumerators) (dst_typenum_t : Int)
    (h : dst_typenum_t ∉ E.labels) :
    _dtype_from_typenum E dst_typenum_t = .error (.value_error "Unrecognized dst_typeid") ∧
    ∀ d, _dtype_from_typenum E dst_typenum_t ≠ .ok d := by
  have he := switch_lookup_not_mem E.cases dst_typenum_t (by rw [E.cases_labels]; exact h)
  rw [dtype_from_typenum_eq_switch]
  refine ⟨he, ?_⟩
  intro d hd
  rw [he] at hd
  cases hd

/-- Witness of C7 at the codes 14 and -1 of the enumeration numbered from 0. -/
theorem dtype_from_typenum_unrecognized_witness :
    _dtype_from_typenum td_ns 14 = .error (.value_error "Unrecognized dst_typeid") ∧
    _dtype_from_typenum td_ns (-1) = .error (.value_error "Unrecognized dst_typeid") :=
  ⟨(dtype_from_typenum_unrecognized td_ns 14 (by decide)).1,
   (dtype_from_typenum_unrecognized td_ns (-1) (by decide)).1⟩

/-! ## Result-type queries on populated type maps -/

theorem binary_result_typeid_of_in_range (n : Nat) (i j : Fin n) (tbl : Fin n → Fin n → Int) :
    binary_result_typeid n ((i : Nat) : Int) ((j : Nat) : Int) tbl = .ok (tbl i j) := by
  have h : ¬ (((i : Nat) : Int) < 0 ∨ ((i : Nat) : Int) ≥ (n : Int) ∨
      ((j : Nat) : Int) < 0 ∨ ((j : Nat) : Int) ≥ (n : Int)) := by
    have := i.isLt
    have := j.isLt
    omega
  simp [binary_result_typeid, h]

theorem type_map_cell_valid_or_sentinel {n : Nat} (r : Option (Fin n)) :
    type_map_cell r = -1 ∨ (0 ≤ type_map_cell r ∧ type_map_cell r < (n : Int)) := by
  cases r with
  | none => exact Or.inl rfl
  | some k =>
    right
    have := k.isLt
    simp only [type_map_cell]
    omega

/-- C4: after an operation's populate routine has run (from whatever the
storage held), with factories that give the output type code of a supported
combination and the sentinel -1 of an unsupported one, the result-type lookup
of that operation at every in-range type code (unary, through `_result_typeid`)
or pair of type codes (binary) returns the sentinel -1 or a valid type code of
`[0, num_types)`. -/
theorem result_type_query_valid_or_unsupported (num_types : Nat) (S : TypeSupport num_types)
    (s : Tables num_types) :
    (∀ (op : UnaryOp) (i : Fin num_types), ∃ v,
      _result_typeid num_types ((i : Nat) : Int)
        (run_populate S.factories (populate_routine (.unary op)) s
          (.output_typeid_vector op)) = .ok v ∧
      (v = -1 ∨ (0 ≤ v ∧ v < (num_types : Int)))) ∧
    (∀ (op : BinaryOp) (i j : Fin num_types), ∃ v,
      binary_result_typeid num_types ((i : Nat) : Int) ((j : Nat) : Int)
        (run_populate S.factories (populate_routine (.binary op)) s
          (.output_id_table op)) = .ok v ∧
      (v = -1 ∨ (0 ≤ v ∧ v < (num_types : Int)))) := by
  constructor
  · intro op i
    refine ⟨_, result_typeid_of_in_range num_types i _, ?_⟩
    rw [unary_type_map_populated]
    exact type_map_cell_valid_or_sentinel _
  · intro op i j
    refine ⟨_, binary_result_typeid_of_in_range num_types i j _, ?_⟩
    rw [binary_type_map_populated]
    exact type_map_cell_valid_or_sentinel _

/-- Instance of C4: with two type codes, where every operation supports the
pairs of equal types only, the `abs` lookup at the code 1 and the `add` lookup
at the pair (0, 1) on the populated maps give a valid code or the sentinel. -/
theorem result_type_query_valid_or_unsupported_witness :
    (∃ v, _result_typeid 2 (((1 : Fin 2) : Nat) : Int)
        (run_populate same_type_support.factories (populate_routine (.unary .abs))
          (zero_tables 2) (.output_typeid_vector .abs)) = .ok v ∧
      (v = -1 ∨ (0 ≤ v ∧ v < ((2 : Nat) : Int)))) ∧
    (∃ v, binary_result_typeid 2 (((0 : Fin 2) : Nat) : Int) (((1 : Fin 2) : Nat) : Int)
        (run_populate same_type_support.factories (populate_routine (.binary .add))
          (zero_tables 2) (.output_id_table .add)) = .ok v ∧
      (v = -1 ∨ (0 ≤ v ∧ v < ((2 : Nat) : Int)))) :=
  ⟨(result_type_query_valid_or_unsupported 2 same_type_support (zero_tables 2)).1 .abs 1,
   (result_type_query_valid_or_unsupported 2 same_type_support (zero_tables 2)).2 .add 0 1⟩

/-! ## The registered functions -/

set_option maxRecDepth 100000

/-- C8: every out-of-place dispatch function registered by
`init_elementwise_functions` under a name `_X` has a result-type query
registered under `_X_result_type`, every registered result-type query is
registered under the name of a registered dispatch function followed by
`_result_type`, and the names tell the shapes apart: a registration is a
result-type query exactly when its name ends in `_result_type` and an in-place
function exactly when its name ends in `_inplace`. -/
theorem two_call_shapes :
    (∀ r ∈ registrations, r.2.is_dispatch = true →
      ∃ q ∈ registrations, q.2.is_result_type = true ∧ q.1 = r.1 ++ "_result_type") ∧
    (∀ q ∈ registrations, q.2.is_result_type = true →
      ∃ r ∈ registrations, r.2.is_dispatch = true ∧ q.1 = r.1 ++ "_result_type") ∧
    (∀ r ∈ registrations,
      (r.2.is_result_type = has_suffix r.1 "_result_type") ∧
      (r.2.is_inplace = has_suffix r.1 "_inplace") ∧
      (r.2.is_dispatch = (!has_suffix r.1 "_result_type" && !has_suffix r.1 "_inplace"))) := by
  refine ⟨?_, ?_, ?_⟩ <;> decide

/-! ## Purity of the result-type lookup -/

/-- C9: a call of `_result_typeid` on an operation's output-type vector leaves
the whole static storage, that vector included, as it was; its outcome (value
or error) is the same for any two storages in which that vector has the same
contents, and even for any two tables that agree at the cell of the type code;
the call takes a type code and a table, no queue and no array. -/
theorem result_typeid_pure (num_types : Nat) (arg_typeid : Int) (op : UnaryOp)
    (s : Tables num_types) :
    (call_result_typeid arg_typeid op s).2 = s ∧
    (∀ s' : Tables num_types, s' (.output_typeid_vector op) = s (.output_typeid_vector op) →
      (call_result_typeid arg_typeid op s').1 = (call_result_typeid arg_typeid op s).1) ∧
    (∀ table table' : Fin num_types → Int,
      (∀ i : Fin num_types, ((i : Nat) : Int) = arg_typeid → table i = table' i) →
      _result_typeid num_types arg_typeid table = _result_typeid num_types arg_typeid table') := by
  refine ⟨rfl, ?_, ?_⟩
  · intro s' hs
    simp [call_result_typeid, hs]
  · intro table table' h
    by_cases hr : arg_typeid < 0 ∨ arg_typeid ≥ (num_types : Int)
    · rw [result_typeid_of_out_of_range _ _ _ hr, result_typeid_of_out_of_range _ _ _ hr]
    · obtain ⟨i, hi⟩ := in_range_eq_fin num_types arg_typeid (by omega) (by omega)
      rw [← hi, result_typeid_of_in_range, result_typeid_of_in_range, h i hi]

/-- Witness of C9: two tables that differ away from the cell of the code 1
give the same outcome for the code 1. -/
theorem result_typeid_pure_witness :
    _result_typeid 3 1 ![5, -1, 7] = _result_typeid 3 1 ![0, -1, 0] :=
  (result_typeid_pure 3 1 .abs (zero_tables 3)).2.2 ![5, -1, 7] ![0, -1, 0] (by decide)

/-! ## Idempotence of the populate routines -/

/-- C10: for every operation, running its populate routine a second time leaves
the whole static storage (every dispatch vector, dispatch table and type map)
exactly as the first run left it, whatever the storage held before and
whatever the factories give. -/
theorem populate_idempotent (num_types : Nat) (F : Factories num_types) (op : Op)
    (s : Tables num_types) :
    run_populate F (populate_routine op) (run_populate F (populate_routine op) s) =
      run_populate F (populate_routine op) s :=
  run_populate_idem F (populate_routine op) s

/-! ## Populate calls and the wiring of the registered functions -/

/-- C11: `init_elementwise_functions` calls the populate routine of each of the
36 operations exactly once (36 populate calls in all), and every populate
routine writes each static array declared for its operation exactly once: its
targets are pairwise distinct and are the declared arrays of the operation. -/
theorem tables_built_exactly_once :
    (∀ op : Op, init_elementwise_functions.count (.populate op) = 1) ∧
    (init_elementwise_functions.filter InitStmt.is_populate).length = 36 ∧
    Fintype.card Op = 36 ∧
    (∀ op : Op, ((populate_routine op).map BuilderCall.target).Nodup ∧
      (∀ t ∈ declared_tables op, ((populate_routine op).map BuilderCall.target).count t = 1) ∧
      ((populate_routine op).map BuilderCall.target).Perm (declared_tables op)) := by
  refine ⟨?_, ?_, ?_, ?_⟩ <;> decide

/-- C12: every unary operation is registered with exactly one dispatch function,
whose lambda passes the output-type vector, the contiguous dispatch vector and
the strided dispatch vector of that operation, and one result-type query on the
same output-type vector; nothing else is registered for it, the file declares
no further array for it, and every `py_unary_ufunc` registration has this
form. -/
theorem unary_two_kernel_variants :
    (∀ op : UnaryOp, registered_for (.unary op) =
      [.py_unary_ufunc (.output_typeid_vector op) (.dispatch_vector op .contig)
          (.dispatch_vector op .strided),
        .py_unary_ufunc_result_type (.output_typeid_vector op)]) ∧
    (∀ op : UnaryOp, (declared_tables (.unary op)).Perm
      [.output_typeid_vector op, .dispatch_vector op .contig, .dispatch_vector op .strided]) ∧
    (∀ r ∈ registrations, r.2.is_unary_dispatch = true →
      ∃ op : UnaryOp, r.2 = .py_unary_ufunc (.output_typeid_vector op)
        (.dispatch_vector op .contig) (.dispatch_vector op .strided)) ∧
    Fintype.card UnaryVariant = 2 := by
  refine ⟨?_, ?_, ?_, ?_⟩ <;> decide

/-- C13: every in-place registration passes, after the output-type table,
exactly three kernel tables of one operation: its in-place contiguous, in-place
strided and in-place row-matrix broadcast tables. Every out-of-place binary
registration passes, after the output-type table, four kernel slots of one
operation: its contiguous table, its strided table, and in the matrix-row and
row-matrix broadcast slots either the table of that variant or an all-null
`NullPtrTable`. -/
theorem binary_kernel_slots :
    (∀ r ∈ registrations, r.2.is_inplace = true →
      ∃ op : BinaryOp, r.2 = .py_binary_inplace_ufunc (.output_id_table op)
        (.dispatch_table op .inplace_contig) (.dispatch_table op .inplace_strided)
        (.dispatch_table op .inplace_row_matrix)) ∧
    (∀ r ∈ registrations, r.2.is_binary_dispatch = true →
      ∃ op : BinaryOp,
        ∃ mr ∈ [TableArg.NullPtrTable,
          .static (.dispatch_table op .contig_matrix_contig_row_broadcast)],
        ∃ rm ∈ [TableArg.NullPtrTable,
          .static (.dispatch_table op .contig_row_contig_matrix_broadcast)],
        r.2 = .py_binary_ufunc (.output_id_table op) (.dispatch_table op .contig)
          (.dispatch_table op .strided) mr rm) ∧
    (∀ op : BinaryOp, ∃ f ∈ registered_for (.binary op), f.is_binary_dispatch = true) := by
  refine ⟨?_, ?_, ?_⟩ <;> decide

/-- C14: `init_elementwise_functions` registers no function, under the dispatch
name, the result-type name or the in-place name, for any of the inverse
trigonometric, bitwise and rounding operations; every name it registers is
built from one of the 36 operation names that have code. -/
theorem placeholders_not_registered :
    (∀ X ∈ ["acos", "acosh", "asin", "asinh", "atan", "atan2", "atanh",
        "bitwise_and", "bitwise_or", "bitwise_xor", "bitwise_invert",
        "bitwise_left_shift", "bitwise_right_shift", "ceil", "floor", "round", "trunc"],
      ∀ suffix ∈ ["", "_result_type", "_inplace"],
        "_" ++ X ++ suffix ∉ registered_names) ∧
    (∀ name ∈ registered_names,
      ∃ X ∈ ["abs", "add", "conj", "cos", "divide", "equal", "exp", "expm1",
        "floor_divide", "greater", "greater_equal", "imag", "isfinite", "isinf", "isnan",
        "less", "less_equal", "log", "log1p", "log2", "log10", "logical_and",
        "logical_not", "logical_or", "logical_xor", "multiply", "negative", "not_equal",
        "positive", "pow", "proj", "real", "sin", "square", "sqrt", "subtract"],
      ∃ suffix ∈ ["", "_result_type", "_inplace"], name = "_" ++ X ++ suffix) := by
  refine ⟨?_, ?_⟩ <;> decide

/-! ## Consistency of type maps and kernel tables -/

theorem binary_strided_populated {n : Nat} (F : Factories n) (s : Tables n) (op : BinaryOp) :
    run_populate F (populate_routine (.binary op)) s (.dispatch_table op .strided) =
      F.BinaryKernel op .strided := by
  cases op <;>
    simp [populate_routine, run_populate, BuilderCall.exec_eq, BuilderCall.target,
      BuilderCall.value,
      populate_add_dispatch_tables, populate_true_divide_dispatch_tables,
      populate_equal_dispatch_tables, populate_floor_divide_dispatch_tables,
      populate_greater_dispatch_tables, populate_greater_equal_dispatch_tables,
      populate_less_dispatch_tables, populate_less_equal_dispatch_tables,
      populate_logical_and_dispatch_tables, populate_logical_or_dispatch_tables,
      populate_logical_xor_dispatch_tables, populate_multiply_dispatch_tables,
      populate_not_equal_dispatch_tables, populate_pow_dispatch_tables,
      populate_subtract_dispatch_tables]

theorem strided_table_declared (op : BinaryOp) :
    TableId.dispatch_table op .strided ∈ declared_tables (.binary op) := by
  cases op <;> decide

/-- C15: after the populate routine of a binary operation has run (from
whatever the storage held), with factories that give null pointers and the
sentinel for the unsupported combinations and a strided kernel for a supported
one, wherever the output-type table of the operation holds a valid type code at
an in-range pair `(i, j)`, one of the kernel tables declared for the operation
holds a non-null pointer at `(i, j)`. -/
theorem promotable_is_dispatchable (num_types : Nat) (S : TypeSupport num_types)
    (s : Tables num_types) (op : BinaryOp) (i j : Fin num_types)
    (hv : is_valid_typeid num_types
      (run_populate S.factories (populate_routine (.binary op)) s (.output_id_table op) i j)) :
    ∃ variant : BinaryVariant,
      TableId.dispatch_table op variant ∈ declared_tables (.binary op) ∧
      run_populate S.factories (populate_routine (.binary op)) s
        (.dispatch_table op variant) i j ≠ none := by
  refine ⟨.strided, strided_table_declared op, ?_⟩
  rw [binary_type_map_populated] at hv
  rw [binary_strided_populated]
  show S.factories.BinaryKernel op .strided i j ≠ none
  cases hr : S.binary_result op i j with
  | none =>
    have hneg : S.factories.BinaryTypeMap op i j = -1 := by
      simp [TypeSupport.factories, type_map_cell, hr]
    rw [hneg] at hv
    exact absurd hv.1 (by decide)
  | some k => simp [TypeSupport.factories, hr]

/-- Witness of C15: with two type codes, where every binary operation supports
the pairs of equal types only and has strided kernels only, the output-type
table of `add` holds the code 1 at `(1, 1)` and `add` has a kernel there. -/
theorem promotable_is_dispatchable_witness :
    is_valid_typeid 2
      (run_populate same_type_support.factories (populate_routine (.binary .add))
        (zero_tables 2) (.output_id_table .add) 1 1) ∧
    ∃ variant : BinaryVariant,
      TableId.dispatch_table .add variant ∈ declared_tables (.binary .add) ∧
      run_populate same_type_support.factories (populate_routine (.binary .add))
        (zero_tables 2) (.dispatch_table .add variant) 1 1 ≠ none :=
  have hv : is_valid_typeid 2
      (run_populate same_type_support.factories (populate_routine (.binary .add))
        (zero_tables 2) (.output_id_table .add) 1 1) := by
    rw [binary_type_map_populated]
    exact ⟨by decide, by decide⟩
  ⟨hv, promotable_is_dispatchable 2 same_type_support (zero_tables 2) .add 1 1 hv⟩

/-! ## The operation dispatcher -/

theorem unary_precondition_failure_of_unexpected_dst (n : Nat) (src dst : ArrayView)
    (exec_q : Queue) (output_types : Fin n → Int) (i : Fin n)
    (hi : src.typeid = ((i : Nat) : Int)) (hd : dst.typeid ≠ output_types i) :
    unary_precondition_failure n src dst exec_q output_types = some .unsupported_type := by
  simp [unary_precondition_failure, hi, result_typeid_of_in_range, hd]

theorem unary_dispatch_registered (op : UnaryOp) :
    Callee.py_unary_ufunc (.output_typeid_vector op) (.dispatch_vector op .contig)
      (.dispatch_vector op .strided) ∈ registered_for (.unary op) := by
  cases op <;> decide

/-- C16: a call of the dispatch function registered for a unary operation is
rejected with the "unsupported type" failure, and the queue is left as it was
(nothing is submitted, under no kernel and for no other destination type),
whenever the destination type code differs from the entry of the operation's
output-type vector at the in-range source type code. -/
theorem unary_dispatch_rejects_unexpected_dst_type (num_types : Nat) (s : Tables num_types)
    (op : UnaryOp) (src dst : ArrayView) (exec_q : Queue) (depends : List Nat)
    (i : Fin num_types) (hi : src.typeid = ((i : Nat) : Int))
    (hd : dst.typeid ≠ s (.output_typeid_vector op) i) :
    ∃ f ∈ registered_for (.unary op), f.is_unary_dispatch = true ∧
      call_unary s src dst exec_q depends f = some (.error .unsupported_type, exec_q) := by
  refine ⟨_, unary_dispatch_registered op, rfl, ?_⟩
  simp [call_unary, py_unary_ufunc,
    unary_precondition_failure_of_unexpected_dst num_types src dst exec_q _ i hi hd]

/-- Witness of C16: `_abs` called with a source of type code 0 and a destination
of type code 1, on a zero-initialised storage (the output type for 0 is 0). -/
theorem unary_dispatch_rejects_unexpected_dst_type_witness :
    ∃ f ∈ registered_for (.unary .abs), f.is_unary_dispatch = true ∧
      call_unary (zero_tables 2) (contiguous_view 0 [4] 0) (contiguous_view 1 [4] 1)
        empty_queue [] f = some (.error .unsupported_type, empty_queue) :=
  unary_dispatch_rejects_unexpected_dst_type 2 (zero_tables 2) .abs (contiguous_view 0 [4] 0)
    (contiguous_view 1 [4] 1) empty_queue [] 0 rfl (by decide)

theorem foldl_count_eq (p : DeviceRecord → Bool) (l : List DeviceRecord) (n : Nat) :
    l.foldl (fun n d => if p d = true then n + 1 else n) n = n + (l.filter p).length := by
  induction l generalizing n with
  | nil => simp
  | cons d l ih =>
    rw [List.foldl_cons, ih]
    by_cases hd : p d = true
    · simp [hd, List.filter_cons]
      omega
    · simp [hd, List.filter_cons]

theorem int_land_zero_left (x : Int) : Int.land 0 x = 0 := by
  cases x <;> simp [Int.land, Nat.ldiff, Nat.bitwise_zero_left]

theorem int_land_neg_one_natCast (n : Nat) : Int.land (-1) (n : Int) = (n : Int) := by
  show Int.land (Int.negSucc 0) (Int.ofNat n) = Int.ofNat n
  simp [Int.land, Nat.ldiff]

theorem canonical_identifier_zero : canonical_identifier 0 = 0 := rfl

theorem canonical_identifier_all_bits : canonical_identifier (-1) = -1 := by
  simp only [canonical_identifier, int_land_neg_one_natCast]
  decide

theorem device_matches_zero (d : DeviceRecord) : device_matches 0 d = false := by
  simp [device_matches, canonical_identifier_zero, int_land_zero_left]

theorem device_matches_all_bits (d : DeviceRecord) (hb : d.backend ≠ 0) (hk : d.kind ≠ 0) :
    device_matches (-1) d = true := by
  simp [device_matches, canonical_identifier_all_bits, int_land_neg_one_natCast, hb, hk]

/-- C18: for every device identifier the count of `DPCTLDeviceMgr_GetNumDevices`
is the length of the vector of `DPCTLDeviceMgr_GetDevices`; for the identifier 0
the vector is empty and the count 0; for the identifier with all bits set, when
every visible device has a backend flag and a device-type flag, the vector is
the full list of visible devices and the count its length. -/
theorem num_devices_eq_length_devices (visible : List DeviceRecord) :
    (∀ device_identifier : Int, DPCTLDeviceMgr_GetNumDevices visible device_identifier =
      (DPCTLDeviceMgr_GetDevices visible device_identifier).length) ∧
    (DPCTLDeviceMgr_GetDevices visible 0 = [] ∧ DPCTLDeviceMgr_GetNumDevices visible 0 = 0) ∧
    ((∀ d ∈ visible, d.backend ≠ 0 ∧ d.kind ≠ 0) →
      DPCTLDeviceMgr_GetDevices visible (-1) = visible ∧
      DPCTLDeviceMgr_GetNumDevices visible (-1) = visible.length) := by
  have hlen : ∀ device_identifier : Int,
      DPCTLDeviceMgr_GetNumDevices visible device_identifier =
        (DPCTLDeviceMgr_GetDevices visible device_identifier).length := by
    intro m
    simp [DPCTLDeviceMgr_GetNumDevices, DPCTLDeviceMgr_GetDevices, foldl_count_eq]
  have hzero : DPCTLDeviceMgr_GetDevices visible 0 = [] := by
    simp [DPCTLDeviceMgr_GetDevices, List.filter_eq_nil_iff, device_matches_zero]
  refine ⟨hlen, ⟨hzero, by rw [hlen, hzero]; rfl⟩, ?_⟩
  intro hall
  have hfull : DPCTLDeviceMgr_GetDevices visible (-1) = visible := by
    simp only [DPCTLDeviceMgr_GetDevices, List.filter_eq_self]
    intro d hd
    exact device_matches_all_bits d (hall d hd).1 (hall d hd).2
  exact ⟨hfull, by rw [hlen, hfull]⟩

/-- Witness of C18 on a platform of three devices. -/
theorem num_devices_eq_length_devices_witness :
    DPCTLDeviceMgr_GetDevices example_devices (-1) = example_devices ∧
    DPCTLDeviceMgr_GetNumDevices example_devices (-1) = example_devices.length :=
  (num_devices_eq_length_devices example_devices).2.2 (by decide)

theorem int_land_natCast (m n : Nat) :
    Int.land (m : Int) (n : Int) = ((m &&& n : Nat) : Int) := rfl

theorem int_lor_natCast (m n : Nat) :
    Int.lor (m : Int) (n : Int) = ((m ||| n : Nat) : Int) := rfl

theorem nat_lor_eq_zero (x y : Nat) : x ||| y = 0 ↔ x = 0 ∧ y = 0 := by
  constructor
  · intro h
    have hbit : ∀ i, (x.testBit i || y.testBit i) = false := by
      intro i
      rw [← Nat.testBit_or, h, Nat.zero_testBit]
    constructor
    · apply Nat.zero_of_testBit_eq_false
      intro i
      have := hbit i
      simp only [Bool.or_eq_false_iff] at this
      exact this.1
    · apply Nat.zero_of_testBit_eq_false
      intro i
      have := hbit i
      simp only [Bool.or_eq_false_iff] at this
      exact this.2
  · rintro ⟨rfl, rfl⟩
    rfl

theorem canonical_identifier_of_both (device_identifier : Int)
    (hb : Int.land device_identifier (DPCTL_ALL_BACKENDS : Int) ≠ 0)
    (hk : Int.land device_identifier (DPCTL_ALL : Int) ≠ 0) :
    canonical_identifier device_identifier = device_identifier := by
  unfold canonical_identifier
  by_cases h0 : device_identifier = 0
  · rw [if_pos h0, h0]
  · rw [if_neg h0, if_neg hb, if_neg hk]

theorem canonical_identifier_of_no_backend (device_identifier : Int)
    (h0 : device_identifier ≠ 0)
    (hb : Int.land device_identifier (DPCTL_ALL_BACKENDS : Int) = 0) :
    canonical_identifier device_identifier =
      Int.lor device_identifier (DPCTL_ALL_BACKENDS : Int) := by
  unfold canonical_identifier
  rw [if_neg h0, if_pos hb]

theorem canonical_identifier_of_no_kind (device_identifier : Int)
    (hb : Int.land device_identifier (DPCTL_ALL_BACKENDS : Int) ≠ 0)
    (hk : Int.land device_identifier (DPCTL_ALL : Int) = 0) :
    canonical_identifier device_identifier = Int.lor device_identifier (DPCTL_ALL : Int) := by
  unfold canonical_identifier
  have h0 : device_identifier ≠ 0 := by
    intro h
    rw [h, int_land_zero_left] at hb
    exact hb rfl
  rw [if_neg h0, if_neg hb, if_pos hk]

theorem mem_get_devices (visible : List DeviceRecord) (device_identifier : Int)
    (d : DeviceRecord) :
    d ∈ DPCTLDeviceMgr_GetDevices visible device_identifier ↔
      d ∈ visible ∧
        Int.land (canonical_identifier device_identifier) (d.backend : Int) ≠ 0 ∧
        Int.land (canonical_identifier device_identifier) (d.kind : Int) ≠ 0 := by
  simp [DPCTLDeviceMgr_GetDevices, List.mem_filter, device_matches]

theorem device_matches_of_kind_flags (m : Nat) (hm : m ≠ 0)
    (hb : m &&& DPCTL_ALL_BACKENDS = 0) (d : DeviceRecord) (hd : d.has_known_flags = true) :
    device_matches (m : Int) d = decide (m &&& d.kind ≠ 0) := by
  simp only [DeviceRecord.has_known_flags, Bool.and_eq_true, decide_eq_true_eq] at hd
  obtain ⟨⟨⟨hdb, _⟩, _⟩, hdk⟩ := hd
  have hcanon : canonical_identifier (m : Int) = ((m ||| DPCTL_ALL_BACKENDS : Nat) : Int) := by
    rw [canonical_identifier_of_no_backend _ (by exact_mod_cast hm)
      (by rw [int_land_natCast, hb]; rfl), int_lor_natCast]
  have h1 : (m ||| DPCTL_ALL_BACKENDS) &&& d.backend ≠ 0 := by
    rw [Nat.and_distrib_right]
    intro h
    exact hdb ((nat_lor_eq_zero _ _).mp h).2
  have h2 : (m ||| DPCTL_ALL_BACKENDS) &&& d.kind = m &&& d.kind := by
    rw [Nat.and_distrib_right, hdk, Nat.or_zero]
  simp only [device_matches, hcanon, int_land_natCast, h2]
  simp [h1]

theorem device_matches_of_backend_flags (m : Nat) (hb : m &&& DPCTL_ALL_BACKENDS ≠ 0)
    (hk : m &&& DPCTL_ALL = 0) (d : DeviceRecord) (hd : d.has_known_flags = true) :
    device_matches (m : Int) d = decide (m &&& d.backend ≠ 0) := by
  simp only [DeviceRecord.has_known_flags, Bool.and_eq_true, decide_eq_true_eq] at hd
  obtain ⟨⟨⟨_, hdb⟩, hdk⟩, _⟩ := hd
  have hcanon : canonical_identifier (m : Int) = ((m ||| DPCTL_ALL : Nat) : Int) := by
    rw [canonical_identifier_of_no_kind _
      (by rw [int_land_natCast]; exact_mod_cast hb)
      (by rw [int_land_natCast, hk]; rfl), int_lor_natCast]
  have h1 : (m ||| DPCTL_ALL) &&& d.kind ≠ 0 := by
    rw [Nat.and_distrib_right]
    intro h
    exact hdk ((nat_lor_eq_zero _ _).mp h).2
  have h2 : (m ||| DPCTL_ALL) &&& d.backend = m &&& d.backend := by
    rw [Nat.and_distrib_right, hdb, Nat.or_zero]
  simp only [device_matches, hcanon, int_land_natCast, h2]
  simp [h1]

theorem device_matches_of_both_flags (m : Nat) (hb : m &&& DPCTL_ALL_BACKENDS ≠ 0)
    (hk : m &&& DPCTL_ALL ≠ 0) (d : DeviceRecord) :
    device_matches (m : Int) d = (decide (m &&& d.backend ≠ 0) && decide (m &&& d.kind ≠ 0)) := by
  have hcanon : canonical_identifier (m : Int) = (m : Int) :=
    canonical_identifier_of_both _ (by rw [int_land_natCast]; exact_mod_cast hb)
      (by rw [int_land_natCast]; exact_mod_cast hk)
  simp only [device_matches, hcanon, int_land_natCast]
  simp

theorem device_matches_natCast (m : Nat)
    (hm : m ≠ 0 → m &&& DPCTL_ALL_BACKENDS ≠ 0 ∨ m &&& DPCTL_ALL ≠ 0) (d : DeviceRecord)
    (hd : d.has_known_flags = true) :
    device_matches (m : Int) d =
      (decide (m ≠ 0) &&
        (decide (m &&& DPCTL_ALL_BACKENDS = 0) || decide (m &&& d.backend ≠ 0)) &&
        (decide (m &&& DPCTL_ALL = 0) || decide (m &&& d.kind ≠ 0))) := by
  by_cases h0 : m = 0
  · subst h0
    rw [show ((0 : Nat) : Int) = 0 from rfl, device_matches_zero]
    simp
  · by_cases hb : m &&& DPCTL_ALL_BACKENDS = 0
    · have hk : m &&& DPCTL_ALL ≠ 0 := by
        rcases hm h0 with h | h
        · exact absurd hb h
        · exact h
      rw [device_matches_of_kind_flags m h0 hb d hd]
      simp [h0, hb, hk]
    · by_cases hk : m &&& DPCTL_ALL = 0
      · rw [device_matches_of_backend_flags m hb hk d hd]
        simp [h0, hb, hk]
      · rw [device_matches_of_both_flags m hb hk d]
        simp [h0, hb, hk]

/-- C19 fails where a single flag selects on that flag alone: on the platform of
three devices the identifier `DPCTL_OPENCL` shares no bit with the device-type
flag of any device, and `DPCTLDeviceMgr_GetDevices` gives the two OpenCL
devices, not the empty vector. -/
theorem get_devices_backend_flag_alone_not_empty :
    (∀ d ∈ example_devices, Int.land ((DPCTL_OPENCL : Nat) : Int) (d.kind : Int) = 0) ∧
    DPCTLDeviceMgr_GetDevices example_devices ((DPCTL_OPENCL : Nat) : Int) =
      [{ backend := DPCTL_OPENCL, kind := DPCTL_CPU, handle := 0 },
       { backend := DPCTL_OPENCL, kind := DPCTL_GPU, handle := 1 }] := by
  decide

/-- C19 as amended: the vector of `DPCTLDeviceMgr_GetDevices` holds exactly the
visible devices whose backend flag and whose device-type flag both have a bit
in the device identifier with its omitted part filled in, in the order of the
enumeration. An identifier with a backend bit and a device-type bit is taken as
it is, and the test is that of both bits in the identifier itself; a nonzero
identifier with no backend bit stands for every backend, one with backend bits
and no device-type bit for every device type; the identifier 0 gives the empty
vector. On a platform whose devices have backend flags and device-type flags,
for an identifier made of such bits, these are the devices whose backend flag
has a bit in a nonzero identifier or the identifier has no backend bit, and
whose device-type flag has a bit in the identifier or the identifier has no
device-type bit. -/
theorem get_devices_filters_canonical_identifier (visible : List DeviceRecord)
    (device_identifier : Int) :
    (∀ d, d ∈ DPCTLDeviceMgr_GetDevices visible device_identifier ↔
      d ∈ visible ∧
        Int.land (canonical_identifier device_identifier) (d.backend : Int) ≠ 0 ∧
        Int.land (canonical_identifier device_identifier) (d.kind : Int) ≠ 0) ∧
    (DPCTLDeviceMgr_GetDevices visible device_identifier).Sublist visible ∧
    (Int.land device_identifier (DPCTL_ALL_BACKENDS : Int) ≠ 0 →
      Int.land device_identifier (DPCTL_ALL : Int) ≠ 0 →
      ∀ d, d ∈ DPCTLDeviceMgr_GetDevices visible device_identifier ↔
        d ∈ visible ∧ Int.land device_identifier (d.backend : Int) ≠ 0 ∧
          Int.land device_identifier (d.kind : Int) ≠ 0) ∧
    (device_identifier ≠ 0 → Int.land device_identifier (DPCTL_ALL_BACKENDS : Int) = 0 →
      canonical_identifier device_identifier =
        Int.lor device_identifier (DPCTL_ALL_BACKENDS : Int)) ∧
    (Int.land device_identifier (DPCTL_ALL_BACKENDS : Int) ≠ 0 →
      Int.land device_identifier (DPCTL_ALL : Int) = 0 →
      canonical_identifier device_identifier =
        Int.lor device_identifier (DPCTL_ALL : Int)) ∧
    DPCTLDeviceMgr_GetDevices visible 0 = [] ∧
    ((∀ d ∈ visible, d.has_known_flags = true) → ∀ m : Nat,
      (m ≠ 0 → m &&& DPCTL_ALL_BACKENDS ≠ 0 ∨ m &&& DPCTL_ALL ≠ 0) →
      DPCTLDeviceMgr_GetDevices visible (m : Int) =
        visible.filter (fun d => decide (m ≠ 0) &&
          (decide (m &&& DPCTL_ALL_BACKENDS = 0) || decide (m &&& d.backend ≠ 0)) &&
          (decide (m &&& DPCTL_ALL = 0) || decide (m &&& d.kind ≠ 0)))) := by
  refine ⟨mem_get_devices visible device_identifier, List.filter_sublist _, ?_,
    canonical_identifier_of_no_backend device_identifier,
    canonical_identifier_of_no_kind device_identifier, ?_, ?_⟩
  · intro hb hk d
    rw [mem_get_devices, canonical_identifier_of_both device_identifier hb hk]
  · simp [DPCTLDeviceMgr_GetDevices, List.filter_eq_nil_iff, device_matches_zero]
  · intro hflags m hm
    apply List.filter_congr
    intro d hd
    exact device_matches_natCast m hm d (hflags d hd)

/-- Instance of C19 as amended: on the platform of three devices the identifier
`DPCTL_OPENCL | DPCTL_GPU` gives the OpenCL GPU alone. -/
theorem get_devices_filters_canonical_identifier_witness :
    ∀ d, d ∈ DPCTLDeviceMgr_GetDevices example_devices
        ((DPCTL_OPENCL ||| DPCTL_GPU : Nat) : Int) ↔
      d ∈ example_devices ∧
        Int.land ((DPCTL_OPENCL ||| DPCTL_GPU : Nat) : Int) (d.backend : Int) ≠ 0 ∧
        Int.land ((DPCTL_OPENCL ||| DPCTL_GPU : Nat) : Int) (d.kind : Int) ≠ 0 :=
  (get_devices_filters_canonical_identifier example_devices
    ((DPCTL_OPENCL ||| DPCTL_GPU : Nat) : Int)).2.2.1 (by decide) (by decide)

/-- C20: on a platform whose devices have backend flags and device-type flags,
a device identifier that holds device-type bits only gives the visible devices
whose device-type flag has a bit in it, of every backend, and an identifier that
holds backend bits only gives the visible devices whose backend flag has a bit
in it, of every device type: `DPCTLDeviceMgr_GetDevices(DPCTL_GPU)` gives all
GPU devices and `DPCTLDeviceMgr_GetDevices(DPCTL_OPENCL)` all OpenCL devices,
and `DPCTLDeviceMgr_GetNumDevices` counts them. -/
theorem get_devices_single_flag_selects_on_flag (visible : List DeviceRecord)
    (hflags : ∀ d ∈ visible, d.has_known_flags = true) :
    DPCTLDeviceMgr_GetDevices visible ((DPCTL_GPU : Nat) : Int) =
      visible.filter (fun d => decide (DPCTL_GPU &&& d.kind ≠ 0)) ∧
    DPCTLDeviceMgr_GetDevices visible ((DPCTL_OPENCL : Nat) : Int) =
      visible.filter (fun d => decide (DPCTL_OPENCL &&& d.backend ≠ 0)) ∧
    DPCTLDeviceMgr_GetNumDevices visible ((DPCTL_GPU : Nat) : Int) =
      (visible.filter (fun d => decide (DPCTL_GPU &&& d.kind ≠ 0))).length ∧
    DPCTLDeviceMgr_GetNumDevices visible ((DPCTL_OPENCL : Nat) : Int) =
      (visible.filter (fun d => decide (DPCTL_OPENCL &&& d.backend ≠ 0))).length ∧
    (∀ m : Nat, m ≠ 0 → m &&& DPCTL_ALL_BACKENDS = 0 →
      DPCTLDeviceMgr_GetDevices visible (m : Int) =
        visible.filter (fun d => decide (m &&& d.kind ≠ 0))) ∧
    (∀ m : Nat, m &&& DPCTL_ALL_BACKENDS ≠ 0 → m &&& DPCTL_ALL = 0 →
      DPCTLDeviceMgr_GetDevices visible (m : Int) =
        visible.filter (fun d => decide (m &&& d.backend ≠ 0))) := by
  have hkind : ∀ m : Nat, m ≠ 0 → m &&& DPCTL_ALL_BACKENDS = 0 →
      DPCTLDeviceMgr_GetDevices visible (m : Int) =
        visible.filter (fun d => decide (m &&& d.kind ≠ 0)) := by
    intro m hm hb
    apply List.filter_congr
    intro d hd
    exact device_matches_of_kind_flags m hm hb d (hflags d hd)
  have hbackend : ∀ m : Nat, m &&& DPCTL_ALL_BACKENDS ≠ 0 → m &&& DPCTL_ALL = 0 →
      DPCTLDeviceMgr_GetDevices visible (m : Int) =
        visible.filter (fun d => decide (m &&& d.backend ≠ 0)) := by
    intro m hb hk
    apply List.filter_congr
    intro d hd
    exact device_matches_of_backend_flags m hb hk d (hflags d hd)
  have hlen : ∀ device_identifier : Int,
      DPCTLDeviceMgr_GetNumDevices visible device_identifier =
        (DPCTLDeviceMgr_GetDevices visible device_identifier).length := by
    intro m
    simp [DPCTLDeviceMgr_GetNumDevices, DPCTLDeviceMgr_GetDevices, foldl_count_eq]
  have hgpu := hkind DPCTL_GPU (by decide) (by decide)
  have hopencl := hbackend DPCTL_OPENCL (by decide) (by decide)
  exact ⟨hgpu, hopencl, by rw [hlen, hgpu], by rw [hlen, hopencl], hkind, hbackend⟩

/-- Witness of C20: on the platform of three devices the identifier `DPCTL_GPU`
gives the two GPU devices, of the OpenCL and of the Level Zero backend, and the
identifier `DPCTL_OPENCL` the two OpenCL devices, a CPU and a GPU. -/
theorem get_devices_single_flag_selects_on_flag_witness :
    DPCTLDeviceMgr_GetDevices example_devices ((DPCTL_GPU : Nat) : Int) =
      example_devices.filter (fun d => decide (DPCTL_GPU &&& d.kind ≠ 0)) ∧
    DPCTLDeviceMgr_GetDevices example_devices ((DPCTL_OPENCL : Nat) : Int) =
      example_devices.filter (fun d => decide (DPCTL_OPENCL &&& d.backend ≠ 0)) ∧
    example_devices.filter (fun d => decide (DPCTL_GPU &&& d.kind ≠ 0)) =
      [{ backend := DPCTL_OPENCL, kind := DPCTL_GPU, handle := 1 },
       { backend := DPCTL_LEVEL_ZERO, kind := DPCTL_GPU, handle := 2 }] :=
  have h := get_devices_single_flag_selects_on_flag example_devices (by decide)
  ⟨h.1, h.2.1, by decide⟩

/-! ## Order and wiring in `init_elementwise_functions` -/

/-- C21: in `init_elementwise_functions`, every registration whose lambda names
a static array comes after the call of the populate routine of the operation
that the array belongs to: that call is among the statements before the
registration. -/
theorem tables_populated_before_registration :
    ∀ k : Fin init_elementwise_functions.length,
      ∀ t ∈ (init_elementwise_functions.get k).tables,
        InitStmt.populate t.op ∈ init_elementwise_functions.take k := by
  decide

/-- Witness of C21: the registration of `_add_inplace`, the fifth registration
and the seventh statement, names the in-place strided table of `add`, and the
call of the populate routine of `add` is among the six statements before it. -/
theorem tables_populated_before_registration_witness :
    init_elementwise_functions.get ⟨6, by decide⟩ =
      .define "_add_inplace" (.py_binary_inplace_ufunc (.output_id_table .add)
        (.dispatch_table .add .inplace_contig) (.dispatch_table .add .inplace_strided)
        (.dispatch_table .add .inplace_row_matrix)) ∧
    InitStmt.populate (.binary .add) ∈ init_elementwise_functions.take 6 :=
  ⟨by decide,
   tables_populated_before_registration ⟨6, by decide⟩ (.dispatch_table .add .inplace_strided)
     (by decide)⟩

/-- C22: for every operation `X`, the function registered as `_X` passes the
output-type table of `X` and, in each kernel slot, the table of `X` of the
variant of the slot (in a broadcast slot of an operation without that table,
an all-null `NullPtrTable`); `_X_result_type` passes the output-type table of
`X`; `_X_inplace`, where registered, passes the output-type table and the three
in-place tables of `X`; and every static array that a registration names belongs to the operation
under whose name the registration is made. -/
theorem no_cross_wiring_at_registration :
    (∀ op : UnaryOp,
      registrations.lookup ("_" ++ op.name) =
        some (.py_unary_ufunc (.output_typeid_vector op) (.dispatch_vector op .contig)
          (.dispatch_vector op .strided)) ∧
      registrations.lookup ("_" ++ op.name ++ "_result_type") =
        some (.py_unary_ufunc_result_type (.output_typeid_vector op)) ∧
      registrations.lookup ("_" ++ op.name ++ "_inplace") = none) ∧
    (∀ op : BinaryOp,
      registrations.lookup ("_" ++ op.name) =
        some (.py_binary_ufunc (.output_id_table op) (.dispatch_table op .contig)
          (.dispatch_table op .strided)
          (own_broadcast_arg op .contig_matrix_contig_row_broadcast)
          (own_broadcast_arg op .contig_row_contig_matrix_broadcast)) ∧
      registrations.lookup ("_" ++ op.name ++ "_result_type") =
        some (.py_binary_ufunc_result_type (.output_id_table op)) ∧
      registrations.lookup ("_" ++ op.name ++ "_inplace") ∈
        [none, some (.py_binary_inplace_ufunc (.output_id_table op)
          (.dispatch_table op .inplace_contig) (.dispatch_table op .inplace_strided)
          (.dispatch_table op .inplace_row_matrix))]) ∧
    (∀ r ∈ registrations, r.2.tables ≠ [] ∧ ∀ t ∈ r.2.tables,
      r.1 ∈ ["_" ++ t.op.name, "_" ++ t.op.name ++ "_result_type",
        "_" ++ t.op.name ++ "_inplace"]) ∧
    registered_names.Nodup := by
  refine ⟨?_, ?_, ?_, ?_⟩ <;> decide

/-- C25: the four binary operations add, divide, multiply and subtract are
registered with their own matrix-row and row-matrix broadcast tables, which
the file declares and their populate routines fill; each of the other eleven
binary operations is registered with an all-null `NullPtrTable` in both
broadcast slots and has no broadcast table. -/
theorem broadcast_tables_for_four_operations :
    (∀ op ∈ [BinaryOp.add, .true_divide, .multiply, .subtract],
      registrations.lookup ("_" ++ op.name) =
        some (.py_binary_ufunc (.output_id_table op) (.dispatch_table op .contig)
          (.dispatch_table op .strided)
          (.static (.dispatch_table op .contig_matrix_contig_row_broadcast))
          (.static (.dispatch_table op .contig_row_contig_matrix_broadcast))) ∧
      ∀ variant ∈ [BinaryVariant.contig_matrix_contig_row_broadcast,
          .contig_row_contig_matrix_broadcast],
        TableId.dispatch_table op variant ∈ declared_tables (.binary op) ∧
        BuilderCall.table_fn op variant op variant ∈ populate_routine (.binary op)) ∧
    (∀ op ∈ [BinaryOp.equal, .not_equal, .greater, .greater_equal, .less, .less_equal,
        .floor_divide, .logical_and, .logical_or, .logical_xor, .pow],
      registrations.lookup ("_" ++ op.name) =
        some (.py_binary_ufunc (.output_id_table op) (.dispatch_table op .contig)
          (.dispatch_table op .strided) .NullPtrTable .NullPtrTable) ∧
      ∀ variant ∈ [BinaryVariant.contig_matrix_contig_row_broadcast,
          .contig_row_contig_matrix_broadcast],
        TableId.dispatch_table op variant ∉ declared_tables (.binary op)) ∧
    (∀ op : BinaryOp, op ∈ [BinaryOp.add, .true_divide, .multiply, .subtract] ∨
      op ∈ [BinaryOp.equal, .not_equal, .greater, .greater_equal, .less, .less_equal,
        .floor_divide, .logical_and, .logical_or, .logical_xor, .pow]) ∧
    (∀ (num_types : Nat) (s : Tables num_types) (i j : Fin num_types),
      TableArg.NullPtrTable.resolve s i j = none) := by
  refine ⟨?_, ?_, ?_, ?_⟩
  · decide
  · decide
  · decide
  · intro n s i j
    rfl

/-- C26: the in-place registrations of `init_elementwise_functions` are exactly
`_add_inplace`, `_multiply_inplace` and `_subtract_inplace`, each on the
in-place tables of its operation; no other registered name ends in `_inplace`,
and divide, which has broadcast tables, has neither an in-place registration
nor an in-place table. -/
theorem inplace_for_three_operations :
    registrations.filter (fun r => r.2.is_inplace) =
      [("_add_inplace", .py_binary_inplace_ufunc (.output_id_table .add)
          (.dispatch_table .add .inplace_contig) (.dispatch_table .add .inplace_strided)
          (.dispatch_table .add .inplace_row_matrix)),
       ("_multiply_inplace", .py_binary_inplace_ufunc (.output_id_table .multiply)
          (.dispatch_table .multiply .inplace_contig)
          (.dispatch_table .multiply .inplace_strided)
          (.dispatch_table .multiply .inplace_row_matrix)),
       ("_subtract_inplace", .py_binary_inplace_ufunc (.output_id_table .subtract)
          (.dispatch_table .subtract .inplace_contig)
          (.dispatch_table .subtract .inplace_strided)
          (.dispatch_table .subtract .inplace_row_matrix))] ∧
    registered_names.filter (fun n => has_suffix n "_inplace") =
      ["_add_inplace", "_multiply_inplace", "_subtract_inplace"] ∧
    "_divide_inplace" ∉ registered_names ∧
    (∀ variant ∈ [BinaryVariant.inplace_contig, .inplace_strided, .inplace_row_matrix],
      TableId.dispatch_table .true_divide variant ∉ declared_tables (.binary .true_divide)) ∧
    (∀ variant ∈ [BinaryVariant.contig_matrix_contig_row_broadcast,
        .contig_row_contig_matrix_broadcast],
      TableId.dispatch_table .true_divide variant ∈ declared_tables (.binary .true_divide)) := by
  refine ⟨?_, ?_, ?_, ?_, ?_⟩ <;> decide

/-- C27: the 75 names that `init_elementwise_functions` registers are pairwise
distinct; 36 of the registrations are out-of-place dispatch functions, 36 are
result-type queries and 3 are in-place functions. -/
theorem registered_names_distinct :
    registered_names.Nodup ∧
    registered_names.length = 75 ∧
    (registrations.filter fun r => r.2.is_dispatch).length = 36 ∧
    (registrations.filter fun r => r.2.is_result_type).length = 36 ∧
    (registrations.filter fun r => r.2.is_inplace).length = 3 := by
  refine ⟨?_, ?_, ?_, ?_, ?_⟩ <;> decide

/-! ## Wiring and frame of the populate routines -/

/-- C23: in every populate routine, each builder call takes the factory of the
operation of the routine and of the variant of the array it fills (the type-map
factory for the output-type array), and every static array declared for the
operation is the target of such a call. -/
theorem no_cross_wiring_at_population :
    ∀ op : Op,
      (∀ c ∈ populate_routine op, c.factory = c.target ∧ c.target.op = op) ∧
      (∀ t ∈ declared_tables op, ∃ c ∈ populate_routine op, c.target = t ∧ c.factory = t) := by
  decide

theorem populate_targets_declared :
    ∀ op : Op, ∀ c ∈ populate_routine op, c.target ∈ declared_tables op := by
  decide

theorem declared_tables_own :
    ∀ op : Op, ∀ t ∈ declared_tables op, t.op = op := by
  decide

theorem run_populate_of_not_declared {n : Nat} (F : Factories n) (op : Op) (s : Tables n)
    (t : TableId) (ht : t ∉ declared_tables op) :
    run_populate F (populate_routine op) s t = s t := by
  apply run_populate_frame
  intro hmem
  obtain ⟨c, hc, rfl⟩ := List.mem_map.mp hmem
  exact ht (populate_targets_declared op c hc)

/-- C24: the populate routine of an operation writes only static arrays that the
file declares for that operation, all of which belong to it: every other array,
in particular every dispatch table and type map of every other operation, holds
after the routine what it held before, whatever the factories give. -/
theorem populate_leaves_other_operations (num_types : Nat) (F : Factories num_types)
    (op : Op) (s : Tables num_types) :
    (∀ c ∈ populate_routine op, c.target ∈ declared_tables op ∧ c.target.op = op) ∧
    (∀ t : TableId, t ∉ declared_tables op →
      run_populate F (populate_routine op) s t = s t) ∧
    (∀ t : TableId, t.op ≠ op → run_populate F (populate_routine op) s t = s t) := by
  refine ⟨?_, ?_, ?_⟩
  · intro c hc
    exact ⟨populate_targets_declared op c hc,
      declared_tables_own op _ (populate_targets_declared op c hc)⟩
  · intro t ht
    exact run_populate_of_not_declared F op s t ht
  · intro t ht
    apply run_populate_of_not_declared
    intro hmem
    exact ht (declared_tables_own op t hmem)

/-- Witness of C24: populating `add` leaves the output-type vector of `abs` and
the strided table of `multiply` as they were. -/
theorem populate_leaves_other_operations_witness :
    run_populate (strided_only_factories 2) (populate_routine (.binary .add)) (zero_tables 2)
        (.output_typeid_vector .abs) = zero_tables 2 (.output_typeid_vector .abs) ∧
    run_populate (strided_only_factories 2) (populate_routine (.binary .add)) (zero_tables 2)
        (.dispatch_table .multiply .strided) = zero_tables 2 (.dispatch_table .multiply .strided) :=
  ⟨(populate_leaves_other_operations 2 (strided_only_factories 2) (.binary .add)
      (zero_tables 2)).2.2 _ (by decide),
   (populate_leaves_other_operations 2 (strided_only_factories 2) (.binary .add)
      (zero_tables 2)).2.2 _ (by decide)⟩

/-! ## Injectivity and range of `_dtype_from_typenum` -/

theorem Enumerators.cases_formats_nodup (E : Enumerators) :
    (E.cases.map Prod.snd).Nodup := by
  have h : E.cases.map Prod.snd = [⟨"?"⟩, ⟨"i1"⟩, ⟨"u1"⟩, ⟨"i2"⟩, ⟨"u2"⟩, ⟨"i4"⟩, ⟨"u4"⟩,
      ⟨"i8"⟩, ⟨"u8"⟩, ⟨"f2"⟩, ⟨"f4"⟩, ⟨"f8"⟩, ⟨"c8"⟩, ⟨"c16"⟩] := rfl
  rw [h]
  decide

theorem fst_eq_of_snd_nodup {α β : Type} (l : List (α × β)) (h : (l.map Prod.snd).Nodup)
    (a b : α) (d : β) (ha : (a, d) ∈ l) (hb : (b, d) ∈ l) : a = b := by
  induction l with
  | nil => cases ha
  | cons c l ih =>
    simp only [List.map_cons, List.nodup_cons] at h
    rcases List.mem_cons.mp ha with ha | ha <;> rcases List.mem_cons.mp hb with hb | hb
    · rw [← ha] at hb
      exact (Prod.mk.inj hb).1.symm
    · exact absurd (List.mem_map.mpr ⟨(b, d), hb, by rw [← ha]⟩) h.1
    · exact absurd (List.mem_map.mpr ⟨(a, d), ha, by rw [← hb]⟩) h.1
    · exact ih h.2 ha hb

/-- C28: two type codes that `_dtype_from_typenum` maps to the same dtype are
the same type code, so a function on dtypes gives back the type code of every
dtype that `_dtype_from_typenum` returns. -/
theorem dtype_from_typenum_injective (E : Enumerators) :
    (∀ (t1 t2 : Int) (d : dtype), _dtype_from_typenum E t1 = .ok d →
      _dtype_from_typenum E t2 = .ok d → t1 = t2) ∧
    (∃ recover : dtype → Option Int, ∀ (t : Int) (d : dtype),
      _dtype_from_typenum E t = .ok d → recover d = some t) := by
  have hinj : ∀ (t1 t2 : Int) (d : dtype), _dtype_from_typenum E t1 = .ok d →
      _dtype_from_typenum E t2 = .ok d → t1 = t2 := by
    intro t1 t2 d h1 h2
    exact fst_eq_of_snd_nodup E.cases E.cases_formats_nodup t1 t2 d
      (switch_lookup_ok_mem E.cases t1 d h1) (switch_lookup_ok_mem E.cases t2 d h2)
  refine ⟨hinj, fun d => (E.cases.find? fun c => c.2 = d).map Prod.fst, ?_⟩
  intro t d h
  have hmem := switch_lookup_ok_mem E.cases t d h
  show Option.map Prod.fst (E.cases.find? fun c => decide (c.2 = d)) = some t
  cases hfind : E.cases.find? (fun c => decide (c.2 = d)) with
  | none =>
    have := List.find?_eq_none.mp hfind (t, d) hmem
    simp at this
  | some c =>
    have hc := List.find?_some hfind
    have hcm := List.mem_of_find?_eq_some hfind
    obtain ⟨t', d'⟩ := c
    simp only [decide_eq_true_eq] at hc
    subst hc
    show some t' = some t
    rw [hinj t' t d' (dtype_from_typenum_of_case E t' d' hcm) h]

/-- Witness of C28: with the enumerators numbered from 0, a code that maps to
the dtype of the code 7 is 7. -/
theorem dtype_from_typenum_injective_witness :
    ∀ t : Int, _dtype_from_typenum td_ns t = .ok ⟨"i8"⟩ → t = 7 :=
  fun t h => (dtype_from_typenum_injective td_ns).1 t 7 ⟨"i8"⟩ h (by decide)

theorem helpers_agree_of_dense (E : Enumerators) (num_types : Nat)
    (hE : E.DenseBelow num_types) :
    (∀ t : Int, 0 ≤ t → t < (num_types : Int) → ∃ d, _dtype_from_typenum E t = .ok d) ∧
    (∀ t : Int, (t < 0 ∨ t ≥ (num_types : Int)) →
      _dtype_from_typenum E t = .error (.value_error "Unrecognized dst_typeid")) := by
  constructor
  · intro t h0 hn
    exact (dtype_from_typenum_ok_iff E t).mpr ((hE t).mpr ⟨h0, hn⟩)
  · intro t ht
    rw [dtype_from_typenum_eq_switch]
    apply switch_lookup_not_mem
    rw [E.cases_labels]
    intro hmem
    have := (hE t).mp hmem
    omega

theorem num_types_of_agreement (E : Enumerators) (n : Nat)
    (h : ∀ t : Int, (0 ≤ t ∧ t < (n : Int)) ↔ ∃ d, _dtype_from_typenum E t = .ok d) :
    n = E.num_types := by
  have hset : E.labels.toFinset = Finset.Ico (0 : Int) (n : Int) := by
    ext t
    simp only [List.mem_toFinset, Finset.mem_Ico]
    rw [h t, dtype_from_typenum_ok_iff]
  have hcard := congrArg Finset.card hset
  rw [List.toFinset_card_of_nodup E.labels_nodup, Int.card_Ico] at hcard
  show n = E.labels.length
  omega

theorem td_ns_dense : td_ns.DenseBelow 14 := by
  intro t
  constructor
  · intro h
    simp only [Enumerators.labels, td_ns, List.mem_cons, List.mem_singleton,
      List.not_mem_nil, or_false] at h
    omega
  · rintro ⟨h0, h14⟩
    simp only [Enumerators.labels, td_ns, List.mem_cons, List.mem_singleton,
      List.not_mem_nil, or_false]
    omega

/-- C29: with the enumerators numbered from 0 and `num_types` the number of the
enumerators, 14, `_dtype_from_typenum` returns a dtype for every type code that
passes the bounds check of `_result_typeid` and throws for every other integer,
so the conversion of every non-negative result below `num_types` of
`_result_typeid` returns a dtype. Whatever the values of the enumerators, the
two helpers agree on the range of the type codes only when `num_types` is the
number of the enumerators, 14. -/
theorem helpers_agree_on_range :
    (∀ t : Int, 0 ≤ t → t < (td_ns.num_types : Int) →
      ∃ d, _dtype_from_typenum td_ns t = .ok d) ∧
    (∀ t : Int, (t < 0 ∨ t ≥ (td_ns.num_types : Int)) →
      _dtype_from_typenum td_ns t = .error (.value_error "Unrecognized dst_typeid")) ∧
    (∀ (fn_output_id : Fin td_ns.num_types → Int) (arg_typeid v : Int),
      _result_typeid td_ns.num_types arg_typeid fn_output_id = .ok v → 0 ≤ v →
        v < (td_ns.num_types : Int) → ∃ d, _dtype_from_typenum td_ns v = .ok d) ∧
    (∀ (fn_output_id : Fin td_ns.num_types → Int) (t : Int),
      (∃ v, _result_typeid td_ns.num_types t fn_output_id = .ok v) ↔
        ∃ d, _dtype_from_typenum td_ns t = .ok d) ∧
    (∀ (E : Enumerators) (n : Nat),
      (∀ t : Int, (0 ≤ t ∧ t < (n : Int)) ↔ ∃ d, _dtype_from_typenum E t = .ok d) →
        n = E.num_types ∧ n = 14) := by
  have hd : td_ns.DenseBelow td_ns.num_types := td_ns_dense
  have hok := (helpers_agree_of_dense td_ns td_ns.num_types hd).1
  have herr := (helpers_agree_of_dense td_ns td_ns.num_types hd).2
  refine ⟨hok, herr, ?_, ?_, ?_⟩
  · intro tbl a v _ h0 hn
    exact hok v h0 hn
  · intro tbl t
    constructor
    · rintro ⟨v, hv⟩
      by_cases hr : t < 0 ∨ t ≥ (td_ns.num_types : Int)
      · rw [result_typeid_of_out_of_range _ _ _ hr] at hv
        cases hv
      · exact hok t (by omega) (by omega)
    · rintro ⟨d, hd⟩
      by_cases hr : t < 0 ∨ t ≥ (td_ns.num_types : Int)
      · rw [herr t hr] at hd
        cases hd
      · obtain ⟨i, hi⟩ := in_range_eq_fin td_ns.num_types t (by omega) (by omega)
        exact ⟨_, by rw [← hi, result_typeid_of_in_range]⟩
  · intro E n h
    have hn := num_types_of_agreement E n h
    exact ⟨hn, by rw [hn]; rfl⟩

/-- Instance of C29: with the enumerators numbered from 0, the code 13 is
converted and the code 14 is not. -/
theorem helpers_agree_on_range_witness :
    (∃ d, _dtype_from_typenum td_ns 13 = .ok d) ∧
    _dtype_from_typenum td_ns 14 = .error (.value_error "Unrecognized dst_typeid") :=
  ⟨helpers_agree_on_range.1 13 (by decide) (by decide),
   helpers_agree_on_range.2.1 14 (by decide)⟩

end dpctl.tensor.py_internal
